import Mathlib

/-!
OAuth2 token endpoint of the MCP gateway (`pkg/api/handlers/mcpgateway/oauth/token.go`).

A shallow embedding of `handler.token`, `handler.doAuthorizationCode` and
`handler.doRefreshToken`, together with the library functions they call
(`crypto/sha256`, `encoding/base64`, `net/url`, `strings`), and theorems about them.

Conventions of the embedding:

* a Go `string` is a sequence of bytes; it is modelled by the Lean `String` that has one
  character per byte (`[]byte(s)` is `toBytes s`, `string(b)` is `ofBytes b`; a character
  above 255 stands for its low byte);
* the record store and the identity provider are external: the store is an explicit
  state (`Store`), and what the outside world decides during one call (failures of store
  operations, the provider's answer, the random text, the clock, the bcrypt verdict) is
  read from an `Env`;
* a handler returns its result together with the world it leaves behind.
-/

namespace OAuth

/-! ## Bytes and strings -/

/-- `[]byte(s)`: the bytes of a Go string. -/
def toBytes (s : String) : List Nat := s.data.map (fun c => c.toNat % 256)

/-- `string(b)`: the Go string made of the bytes `b`. -/
def ofBytes (b : List Nat) : String := String.mk (b.map (fun n => Char.ofNat (n % 256)))

/-- The lowercase hexadecimal digit of a value below 16. -/
def hexDigit (n : Nat) : Char :=
  if n < 10 then Char.ofNat (48 + n) else Char.ofNat (87 + n)

/-- `fmt.Sprintf("%x", b)` for a byte array: two lowercase hex digits per byte. -/
def hexEncode : List Nat → List Char
  | [] => []
  | b :: rest => hexDigit (b / 16 % 16) :: hexDigit (b % 16) :: hexEncode rest

/-! ## crypto/sha256 (FIPS 180-4) -/

namespace sha256

/-- The 64 round constants. -/
def K : List Nat :=
  [0x428a2f98, 0x71374491, 0xb5c0fbcf, 0xe9b5dba5, 0x3956c25b, 0x59f111f1, 0x923f82a4, 0xab1c5ed5,
   0xd807aa98, 0x12835b01, 0x243185be, 0x550c7dc3, 0x72be5d74, 0x80deb1fe, 0x9bdc06a7, 0xc19bf174,
   0xe49b69c1, 0xefbe4786, 0x0fc19dc6, 0x240ca1cc, 0x2de92c6f, 0x4a7484aa, 0x5cb0a9dc, 0x76f988da,
   0x983e5152, 0xa831c66d, 0xb00327c8, 0xbf597fc7, 0xc6e00bf3, 0xd5a79147, 0x06ca6351, 0x14292967,
   0x27b70a85, 0x2e1b2138, 0x4d2c6dfc, 0x53380d13, 0x650a7354, 0x766a0abb, 0x81c2c92e, 0x92722c85,
   0xa2bfe8a1, 0xa81a664b, 0xc24b8b70, 0xc76c51a3, 0xd192e819, 0xd6990624, 0xf40e3585, 0x106aa070,
   0x19a4c116, 0x1e376c08, 0x2748774c, 0x34b0bcb5, 0x391c0cb3, 0x4ed8aa4a, 0x5b9cca4f, 0x682e6ff3,
   0x748f82ee, 0x78a5636f, 0x84c87814, 0x8cc70208, 0x90befffa, 0xa4506ceb, 0xbef9a3f7, 0xc67178f2]

/-- The initial hash value. -/
def H0 : List Nat :=
  [0x6a09e667, 0xbb67ae85, 0x3c6ef372, 0xa54ff53a, 0x510e527f, 0x9b05688c, 0x1f83d9ab, 0x5be0cd19]

/-- Rotate a 32-bit word right by `n` bits. -/
def rotr (x n : Nat) : Nat := ((x >>> n) ||| (x <<< (32 - n))) % 2 ^ 32

/-- Addition of 32-bit words. -/
def add32 (a b : Nat) : Nat := (a + b) % 2 ^ 32

/-- Bitwise complement of a 32-bit word. -/
def not32 (x : Nat) : Nat := 2 ^ 32 - 1 - x % 2 ^ 32

def ch (x y z : Nat) : Nat := (x &&& y) ^^^ (not32 x &&& z)

def maj (x y z : Nat) : Nat := (x &&& y) ^^^ (x &&& z) ^^^ (y &&& z)

def bigSigma0 (x : Nat) : Nat := rotr x 2 ^^^ rotr x 13 ^^^ rotr x 22

def bigSigma1 (x : Nat) : Nat := rotr x 6 ^^^ rotr x 11 ^^^ rotr x 25

def smallSigma0 (x : Nat) : Nat := rotr x 7 ^^^ rotr x 18 ^^^ (x >>> 3)

def smallSigma1 (x : Nat) : Nat := rotr x 17 ^^^ rotr x 19 ^^^ (x >>> 10)

/-- The message with the padding appended: a `0x80` byte, zero bytes up to 56 modulo 64,
and the bit length as a 64-bit big-endian integer. -/
def pad (msg : List Nat) : List Nat :=
  let bits := 8 * msg.length % 2 ^ 64
  msg ++ [0x80] ++ List.replicate ((119 - msg.length % 64) % 64) 0 ++
    (List.range 8).map (fun i => bits / 256 ^ (7 - i) % 256)

/-- The big-endian 32-bit words of a byte sequence. -/
def words : List Nat → List Nat
  | a :: b :: c :: d :: rest => (((a * 256 + b) * 256 + c) * 256 + d) :: words rest
  | _ => []

/-- The message schedule: `n` more words appended to `w`. -/
def schedule (w : List Nat) : Nat → List Nat
  | 0 => w
  | n + 1 =>
    let i := w.length
    schedule (w ++ [add32 (add32 (smallSigma1 (w.getD (i - 2) 0)) (w.getD (i - 7) 0))
      (add32 (smallSigma0 (w.getD (i - 15) 0)) (w.getD (i - 16) 0))]) n

/-- The eight working variables. -/
structure Vars where
  a : Nat
  b : Nat
  c : Nat
  d : Nat
  e : Nat
  f : Nat
  g : Nat
  h : Nat

/-- One round with round constant `k` and schedule word `w`. -/
def round (v : Vars) (k w : Nat) : Vars :=
  let t1 := add32 (add32 (add32 v.h (bigSigma1 v.e)) (add32 (ch v.e v.f v.g) k)) w
  let t2 := add32 (bigSigma0 v.a) (maj v.a v.b v.c)
  { a := add32 t1 t2, b := v.a, c := v.b, d := v.c, e := add32 v.d t1, f := v.e, g := v.f, h := v.g }

/-- The rounds over the paired constants and schedule words. -/
def rounds (v : Vars) : List (Nat × Nat) → Vars
  | [] => v
  | (k, w) :: rest => rounds (round v k w) rest

/-- The compression of one 64-byte block into the hash value `hs`. -/
def compress (hs : List Nat) (block : List Nat) : List Nat :=
  let w := schedule (words block) 48
  let v0 : Vars := { a := hs.getD 0 0, b := hs.getD 1 0, c := hs.getD 2 0, d := hs.getD 3 0,
                     e := hs.getD 4 0, f := hs.getD 5 0, g := hs.getD 6 0, h := hs.getD 7 0 }
  let v := rounds v0 (K.zip w)
  List.zipWith add32 hs [v.a, v.b, v.c, v.d, v.e, v.f, v.g, v.h]

/-- The hash value after the first `n` blocks of `bytes`. -/
def blocks (hs : List Nat) (bytes : List Nat) : Nat → List Nat
  | 0 => hs
  | n + 1 => blocks (compress hs (bytes.take 64)) (bytes.drop 64) n

/-- `sha256.Sum256`: the 32 bytes of the digest. -/
def Sum256 (msg : List Nat) : List Nat :=
  let p := pad (msg.map (fun b => b % 256))
  (blocks H0 p (p.length / 64)).flatMap
    (fun w => [w / 2 ^ 24 % 256, w / 2 ^ 16 % 256, w / 2 ^ 8 % 256, w % 256])

end sha256

/-- `fmt.Sprintf("%x", sha256.Sum256([]byte(s)))`. -/
def sha256Hex (s : String) : String := String.mk (hexEncode (sha256.Sum256 (toBytes s)))

/-! ## encoding/base64 -/

namespace base64

/-- The alphabet of `base64.StdEncoding`. -/
def encodeStd : List Char :=
  "ABCDEFGHIJKLMNOPQRSTUVWXYZabcdefghijklmnopqrstuvwxyz0123456789+/".data

/-- The alphabet of `base64.URLEncoding` and `base64.RawURLEncoding`. -/
def encodeURL : List Char :=
  "ABCDEFGHIJKLMNOPQRSTUVWXYZabcdefghijklmnopqrstuvwxyz0123456789-_".data

/-- The character of the 6-bit value `n % 64`. -/
def digit (alphabet : List Char) (n : Nat) : Char := alphabet.getD (n % 64) 'A'

/-- The 6-bit value of a character of the alphabet. -/
def index (alphabet : List Char) (c : Char) : Option Nat :=
  if alphabet.indexOf c < 64 then some (alphabet.indexOf c) else none

/-- `Encoding.EncodeToString`: three bytes give four characters; a last group of one or
two bytes gives two or three characters, followed by `=` up to four when `padding`. -/
def encode (alphabet : List Char) (padding : Bool) : List Nat → List Char
  | a :: b :: c :: rest =>
    digit alphabet (a / 4) :: digit alphabet (a % 4 * 16 + b / 16) ::
      digit alphabet (b % 16 * 4 + c / 64) :: digit alphabet c :: encode alphabet padding rest
  | [a, b] =>
    [digit alphabet (a / 4), digit alphabet (a % 4 * 16 + b / 16), digit alphabet (b % 16 * 4)] ++
      (if padding then ['='] else [])
  | [a] =>
    [digit alphabet (a / 4), digit alphabet (a % 4 * 16)] ++ (if padding then ['=', '='] else [])
  | [] => []

/-- The groups of four characters of a padded encoding: `=` is accepted only as the last
character, or the last two characters, of the input. -/
def decodeQuanta (alphabet : List Char) : List Char → Option (List Nat)
  | [] => some []
  | a :: b :: c :: d :: rest =>
    match index alphabet a, index alphabet b with
    | some va, some vb =>
      if c = '=' ∧ d = '=' ∧ rest = [] then some [va * 4 + vb / 16]
      else
        match index alphabet c with
        | none => none
        | some vc =>
          if d = '=' ∧ rest = [] then some [va * 4 + vb / 16, vb % 16 * 16 + vc / 4]
          else
            match index alphabet d with
            | none => none
            | some vd =>
              (decodeQuanta alphabet rest).map
                (fun t => (va * 4 + vb / 16) :: (vb % 16 * 16 + vc / 4) :: (vc % 4 * 64 + vd) :: t)
    | _, _ => none
  | _ => none

/-- `base64.StdEncoding.EncodeToString`. -/
def StdEncoding.EncodeToString (src : List Nat) : String :=
  String.mk (encode encodeStd true (src.map (fun b => b % 256)))

/-- `base64.StdEncoding.DecodeString`: carriage returns and line feeds are skipped, the
rest must be a padded encoding; `none` is a `CorruptInputError`. -/
def StdEncoding.DecodeString (s : String) : Option (List Nat) :=
  decodeQuanta encodeStd (s.data.filter (fun c => c != '\r' && c != '\n'))

/-- `base64.RawURLEncoding.EncodeToString`: the URL alphabet, no padding. -/
def RawURLEncoding.EncodeToString (src : List Nat) : String :=
  String.mk (encode encodeURL false (src.map (fun b => b % 256)))

end base64

/-! ## net/url -/

namespace url

def ishex (c : Char) : Bool :=
  ('0' ≤ c && c ≤ '9') || ('a' ≤ c && c ≤ 'f') || ('A' ≤ c && c ≤ 'F')

def unhex (c : Char) : Nat :=
  if '0' ≤ c && c ≤ '9' then c.toNat - 48
  else if 'a' ≤ c && c ≤ 'f' then c.toNat - 97 + 10
  else if 'A' ≤ c && c ≤ 'F' then c.toNat - 65 + 10
  else 0

/-- The body of `unescape` in query-component mode: `%XX` is a byte, `+` is a space, a `%`
not followed by two hex digits is an `EscapeError` (`none`). -/
def unescape : List Char → Option (List Char)
  | [] => some []
  | c :: rest =>
    if c = '%' then
      match rest with
      | h1 :: h2 :: t =>
        if ishex h1 && ishex h2 then
          (unescape t).map (fun u => Char.ofNat (unhex h1 * 16 + unhex h2) :: u)
        else none
      | _ => none
    else if c = '+' then (unescape rest).map (fun u => ' ' :: u)
    else (unescape rest).map (fun u => c :: u)

/-- `url.QueryUnescape`. -/
def QueryUnescape (s : String) : Option String := (unescape s.data).map String.mk

/-- `shouldEscape(c, encodeQueryComponent)`: everything but letters, digits and `-_.~`. -/
def shouldEscape (c : Char) : Bool :=
  !(('a' ≤ c && c ≤ 'z') || ('A' ≤ c && c ≤ 'Z') || ('0' ≤ c && c ≤ '9') ||
    c = '-' || c = '_' || c = '.' || c = '~')

def upperhex (n : Nat) : Char := "0123456789ABCDEF".data.getD (n % 16) '0'

/-- `url.QueryEscape`: a space becomes `+`, an escaped byte becomes `%XX`. -/
def QueryEscape (s : String) : String :=
  String.mk (s.data.flatMap (fun c =>
    if c = ' ' then ['+']
    else if shouldEscape c then ['%', upperhex (c.toNat % 256 / 16), upperhex (c.toNat % 16)]
    else [c]))

end url

/-! ## strings -/

namespace strings

/-- `strings.Trim(s, cutset)`: `s` without the leading and trailing characters that occur
in `cutset`. -/
def Trim (s cutset : String) : String :=
  String.mk ((((s.data.dropWhile (fun c => cutset.data.contains c)).reverse).dropWhile
    (fun c => cutset.data.contains c)).reverse)

/-- `strings.LastIndex(s, sep)` for a one-byte `sep`: the index of its last occurrence,
`-1` when there is none. -/
def LastIndex (s : String) (sep : Char) : Int :=
  if s.data.contains sep then (s.data.length : Int) - 1 - (s.data.reverse.indexOf sep : Int) else -1

/-- `strings.Cut(s, sep)` for a one-byte `sep`: the text before and after its first
occurrence, `none` when `found` is false. -/
def Cut (s : String) (sep : Char) : Option (String × String) :=
  if s.data.contains sep then
    some (String.mk (s.data.takeWhile (fun c => c != sep)),
          String.mk ((s.data.dropWhile (fun c => c != sep)).drop 1))
  else none

/-- `strings.ToLower` on ASCII text (the text `rand.Text` returns is ASCII): the letters
`A` to `Z` become `a` to `z`. -/
def ToLower (s : String) : String := String.mk (s.data.map Char.toLower)

/-- `strings.Contains(s, substr)`. -/
def Contains (s substr : String) : Bool := s.data.tails.any (fun t => substr.data.isPrefixOf t)

/-- `strings.Join(elems, sep)`. -/
def Join (elems : List String) (sep : String) : String := sep.intercalate elems

end strings

/-! ## Errors -/

/-- The `Error` value of the package: an OAuth error code and its description. -/
structure Error where
  Code : String
  Description : String
deriving DecidableEq, Repr

/-- Modelled from the spec: the constant `ErrInvalidRequest` is declared outside
`token.go`; the spec names the error identifier `invalid_request`. -/
def ErrInvalidRequest : String := "invalid_request"

/-- The Go `error` values the handlers return. -/
inductive GoError where
  /-- `types.NewErrHTTP(code, message)`. -/
  | ErrHTTP (code : Nat) (message : String)
  /-- `types.NewErrBadRequest("%v", e)`: status 400 carrying the OAuth error `e`. -/
  | ErrBadRequest (e : Error)
  /-- `fmt.Errorf(msg + ": %w", err)`. -/
  | Errorf (msg : String) (err : GoError)
  /-- The store's answer for a key that holds no record. -/
  | notFound
  /-- The store's answer to `Create` for a key that already holds a record. -/
  | alreadyExists
  /-- Any other error of the store, the provider or the form parser. -/
  | external (msg : String)
deriving DecidableEq, Repr

/-- The HTTP status an error carries: the code of `NewErrHTTP`, 400 for
`NewErrBadRequest`; the status of any other error is chosen outside `token.go`. -/
def GoError.status : GoError → Option Nat
  | .ErrHTTP code _ => some code
  | .ErrBadRequest _ => some 400
  | _ => none

/-- The error `types.NewErrBadRequest("%v", Error{Code: ErrInvalidRequest, Description: d})`. -/
def invalidRequest (d : String) : GoError :=
  .ErrBadRequest { Code := ErrInvalidRequest, Description := d }

/-- The error `types.NewErrHTTP(http.StatusUnauthorized, "Invalid client credentials")`. -/
def invalidClientCredentials : GoError := .ErrHTTP 401 "Invalid client credentials"

/-! ## Records (the fields of the `v1` types that `token.go` reads and writes) -/

namespace v1

structure OAuthClient where
  Namespace : String
  Name : String
  /-- `Spec.Manifest.TokenEndpointAuthMethod`. -/
  TokenEndpointAuthMethod : String
  /-- `Spec.Manifest.GrantTypes`. -/
  GrantTypes : List String
  /-- `Spec.ClientSecretHash`. -/
  ClientSecretHash : String
deriving DecidableEq, Repr

structure OAuthAuthRequest where
  Namespace : String
  Name : String
  /-- `Spec.HashedAuthCode`, the field behind the selector `spec.hashedAuthCode`. -/
  HashedAuthCode : String
  CodeChallenge : String
  CodeChallengeMethod : String
  AuthProviderNamespace : String
  AuthProviderName : String
  UserID : String
deriving DecidableEq, Repr

structure OAuthToken where
  Namespace : String
  Name : String
  ClientID : String
  UserID : String
  AuthProviderNamespace : String
  AuthProviderName : String
deriving DecidableEq, Repr

end v1

namespace types

/-- The JSON body of a successful response. -/
structure OAuthToken where
  AccessToken : String
  TokenType : String
  ExpiresIn : Int
  RefreshToken : String
deriving DecidableEq, Repr

end types

/-! ## The world around a call -/

/-- The record store. -/
structure Store where
  clients : List v1.OAuthClient
  authRequests : List v1.OAuthAuthRequest
  tokens : List v1.OAuthToken
deriving DecidableEq, Repr

/-- One call of `GatewayClient.NewAuthTokenWithExpiration`. -/
structure ProviderCall where
  AuthProviderNamespace : String
  AuthProviderName : String
  UserID : String
  /-- The validity asked for, in nanoseconds. -/
  ttl : Int
deriving DecidableEq, Repr

/-- The store and the log of the calls made to the identity provider. -/
structure World where
  store : Store
  providerCalls : List ProviderCall
deriving DecidableEq, Repr

/-- What `NewAuthTokenWithExpiration` returns beside the access token. -/
structure AuthToken where
  UserID : String
  /-- The expiry, in nanoseconds since the epoch. -/
  ExpiresAt : Int
deriving DecidableEq, Repr

/-- What the outside world decides during one call of `token`. -/
structure Env where
  /-- Whether `bcrypt.CompareHashAndPassword(hash, password)` returns `nil`. -/
  compareHashAndPassword : String → String → Bool
  /-- A failure of `Storage.Get` for the client, other than the record being absent. -/
  getClientErr : Option GoError
  /-- A failure of `Storage.List`. -/
  listErr : Option GoError
  /-- A failure of the delete call. -/
  deleteErr : Option GoError
  /-- A failure of `Storage.Get` for the token, other than the record being absent. -/
  getTokenErr : Option GoError
  /-- A failure of `Create`, other than the key being taken. -/
  createErr : Option GoError
  /-- The answer of the identity provider for a provider namespace, provider name and
  user id. -/
  NewAuthTokenWithExpiration : String → String → String → Except GoError (AuthToken × String)
  /-- The two results of `rand.Text()`. -/
  randText1 : String
  randText2 : String
  /-- The clock read by `time.Until`, in nanoseconds since the epoch. -/
  now : Int

/-- `time.Hour`, in nanoseconds. -/
def Hour : Int := 3600000000000

/-- `Time.Sub`: the difference as a `Duration`, an `int64` of nanoseconds that saturates. -/
def Sub (t u : Int) : Int :=
  if t - u > 2 ^ 63 - 1 then 2 ^ 63 - 1 else if t - u < -(2 ^ 63) then -(2 ^ 63) else t - u

/-- `int(time.Until(expiresAt).Milliseconds() / 1000)`; Go's integer division truncates
toward zero. -/
def expiresIn (now expiresAt : Int) : Int := ((Sub expiresAt now).tdiv 1000000).tdiv 1000

/-! ## Store operations -/

/-- `Storage.Get` of an `OAuthClient` by namespace and name. -/
def Store.getClient (env : Env) (s : Store) (ns name : String) : Except GoError v1.OAuthClient :=
  match env.getClientErr with
  | some e => .error e
  | none =>
    match s.clients.find? (fun c => c.Namespace == ns && c.Name == name) with
    | some c => .ok c
    | none => .error .notFound

/-- `Storage.List` of the `OAuthAuthRequest` records selected by `spec.hashedAuthCode`.
The `ListOptions` of the call carry the field selector and no namespace. -/
def Store.listAuthRequests (env : Env) (s : Store) (hashedAuthCode : String) :
    Except GoError (List v1.OAuthAuthRequest) :=
  match env.listErr with
  | some e => .error e
  | none => .ok (s.authRequests.filter (fun r => r.HashedAuthCode == hashedAuthCode))

/-- `Storage.Delete` of an `OAuthAuthRequest`: on success the record of that namespace and
name is gone. -/
def Store.deleteAuthRequest (env : Env) (s : Store) (r : v1.OAuthAuthRequest) :
    Except GoError Store :=
  match env.deleteErr with
  | some e => .error e
  | none =>
    .ok { s with authRequests :=
      s.authRequests.filter (fun x => !(x.Namespace == r.Namespace && x.Name == r.Name)) }

/-- `Storage.Get` of an `OAuthToken` by namespace and name. -/
def Store.getToken (env : Env) (s : Store) (ns name : String) : Except GoError v1.OAuthToken :=
  match env.getTokenErr with
  | some e => .error e
  | none =>
    match s.tokens.find? (fun t => t.Namespace == ns && t.Name == name) with
    | some t => .ok t
    | none => .error .notFound

/-- `req.Delete` of an `OAuthToken`. -/
def Store.deleteToken (env : Env) (s : Store) (t : v1.OAuthToken) : Except GoError Store :=
  match env.deleteErr with
  | some e => .error e
  | none =>
    .ok { s with tokens :=
      s.tokens.filter (fun x => !(x.Namespace == t.Namespace && x.Name == t.Name)) }

/-- `req.Create` of an `OAuthToken`: it fails when the key is taken. -/
def Store.createToken (env : Env) (s : Store) (t : v1.OAuthToken) : Except GoError Store :=
  match env.createErr with
  | some e => .error e
  | none =>
    if s.tokens.any (fun x => x.Namespace == t.Namespace && x.Name == t.Name) then
      .error .alreadyExists
    else .ok { s with tokens := s.tokens ++ [t] }

/-! ## The handlers -/

deriving instance DecidableEq for Except

/-- The result of a handler and the world it leaves behind. -/
abbrev Outcome := Except GoError types.OAuthToken × World

/-- The PKCE step of `doAuthorizationCode` (the `if` on `Spec.CodeChallenge` with its
`switch` on `Spec.CodeChallengeMethod`): the error it returns, `none` when it passes. -/
def pkce (oauthAuthRequest : v1.OAuthAuthRequest) (codeVerifier : String) : Option GoError :=
  if oauthAuthRequest.CodeChallenge != "" then
    if oauthAuthRequest.CodeChallengeMethod = "S256" then
      if oauthAuthRequest.CodeChallenge !=
          base64.RawURLEncoding.EncodeToString (sha256.Sum256 (toBytes codeVerifier)) then
        some (invalidRequest "code_verifier is invalid")
      else none
    else if oauthAuthRequest.CodeChallengeMethod = "plain" then
      if oauthAuthRequest.CodeChallenge != codeVerifier then
        some (invalidRequest "code_verifier is invalid")
      else none
    else some (invalidRequest "code_challenge_method must be S256 or plain. ")
  else none

/-- The refresh token `strings.ToLower(rand.Text() + rand.Text())`. -/
def newRefreshToken (env : Env) : String := strings.ToLower (env.randText1 ++ env.randText2)

/-- The `v1.OAuthToken` literal of both handlers: the record of a refresh token lives in
the client's namespace under the hex SHA-256 digest of the token, and carries the client's
name, the user id the provider returned and the provider reference of the consumed
record. -/
def newOAuthToken (oauthClient : v1.OAuthClient)
    (refreshToken userID providerNamespace providerName : String) : v1.OAuthToken :=
  { Namespace := oauthClient.Namespace
    Name := sha256Hex refreshToken
    ClientID := oauthClient.Name
    UserID := userID
    AuthProviderNamespace := providerNamespace
    AuthProviderName := providerName }

/-- The second half of both handlers: ask the provider for an access token, create the
`OAuthToken` record of a fresh refresh token, write the response. `createMsg` is the text
that wraps a failure of `Create`. -/
def issue (env : Env) (w : World) (oauthClient : v1.OAuthClient)
    (providerNamespace providerName userID : String) (createMsg : String) : Outcome :=
  let w1 : World := { w with providerCalls := w.providerCalls ++
    [{ AuthProviderNamespace := providerNamespace, AuthProviderName := providerName,
       UserID := userID, ttl := Hour }] }
  match env.NewAuthTokenWithExpiration providerNamespace providerName userID with
  | .error err => (.error (.Errorf "failed to create auth token" err), w1)
  | .ok (tkn, accessToken) =>
    let refreshToken := newRefreshToken env
    let oauthToken := newOAuthToken oauthClient refreshToken tkn.UserID providerNamespace providerName
    match w1.store.createToken env oauthToken with
    | .error err => (.error (.Errorf createMsg err), w1)
    | .ok store =>
      (.ok { AccessToken := accessToken
             TokenType := "bearer"
             ExpiresIn := expiresIn env.now tkn.ExpiresAt
             RefreshToken := refreshToken },
       { w1 with store := store })

/-- `handler.doAuthorizationCode`. -/
def doAuthorizationCode (env : Env) (w : World) (oauthClient : v1.OAuthClient)
    (code codeVerifier : String) : Outcome :=
  if code = "" then (.error (invalidRequest "code is required"), w)
  else
    match w.store.listAuthRequests env (sha256Hex code) with
    | .error err => (.error err, w)
    | .ok [oauthAuthRequest] =>
      -- Authorization codes are one-time use; a failed delete is logged, not returned.
      let w1 : World :=
        match w.store.deleteAuthRequest env oauthAuthRequest with
        | .error _ => w
        | .ok store => { w with store := store }
      match pkce oauthAuthRequest codeVerifier with
      | some err => (.error err, w1)
      | none =>
        issue env w1 oauthClient oauthAuthRequest.AuthProviderNamespace
          oauthAuthRequest.AuthProviderName oauthAuthRequest.UserID "failed to create oauth token"
    | .ok _ => (.error (invalidRequest "code is invalid"), w)

/-- `handler.doRefreshToken`. -/
def doRefreshToken (env : Env) (w : World) (oauthClient : v1.OAuthClient)
    (refreshToken : String) : Outcome :=
  if refreshToken = "" then (.error (invalidRequest "refresh_token is required"), w)
  else
    match w.store.getToken env oauthClient.Namespace (sha256Hex refreshToken) with
    | .error _ => (.error (invalidRequest "refresh_token is invalid"), w)
    | .ok oauthToken =>
      match w.store.deleteToken env oauthToken with
      | .error err => (.error (.Errorf "failed to refresh oauth token" err), w)
      | .ok store =>
        issue env { w with store := store } oauthClient oauthToken.AuthProviderNamespace
          oauthToken.AuthProviderName oauthToken.UserID "failed to create new oauth token"

/-- The server configuration read by `token`. -/
structure OAuthConfig where
  GrantTypesSupported : List String
deriving DecidableEq, Repr

structure handler where
  oauthConfig : OAuthConfig
deriving DecidableEq, Repr

/-- The request as `token` reads it. -/
structure Request where
  /-- The error of `req.ParseForm()`, if any. -/
  parseFormErr : Option GoError
  /-- The parsed form. -/
  form : List (String × String)
  /-- `req.Request.Header.Get("Authorization")`, empty when the header is absent. -/
  authorization : String
deriving DecidableEq, Repr

/-- `req.FormValue(key)`: the first value of `key`, empty when there is none. -/
def Request.FormValue (req : Request) (key : String) : String := (req.form.lookup key).getD ""

/-- The credential block of `token` (from `clientID := req.FormValue("client_id")` to the
end of its `if`/`else`): the client id and the client secret. -/
def credentials (req : Request) : Except GoError (String × String) :=
  let clientID := req.FormValue "client_id"
  if clientID = "" then
    let creds := strings.Trim req.authorization "Basic "
    if creds = "" then .error invalidClientCredentials
    else
      match base64.StdEncoding.DecodeString creds with
      | none => .error invalidClientCredentials
      | some c =>
        let idx := strings.LastIndex (ofBytes c) ':'
        if idx = -1 then .error invalidClientCredentials
        else
          let clientID := ofBytes (c.take idx.toNat)
          let clientSecret := ofBytes (c.drop (idx.toNat + 1))
          if clientID = "" then .error (invalidRequest "client_id is required")
          else
            match url.QueryUnescape clientID with
            | none => .error (invalidRequest "client_id is invalid")
            | some clientID => .ok (clientID, clientSecret)
  else .ok (clientID, req.FormValue "client_secret")

/-- The part of `token` before the grant type is read: parse the form, resolve the
credentials, load the client and check its secret. -/
def authenticate (env : Env) (s : Store) (req : Request) : Except GoError v1.OAuthClient :=
  match req.parseFormErr with
  | some err => .error err
  | none =>
    match credentials req with
    | .error err => .error err
    | .ok (clientID, clientSecret) =>
      match strings.Cut clientID ':' with
      | none => .error (invalidRequest "client_id is invalid")
      | some (clientNamespace, clientName) =>
        match s.getClient env clientNamespace clientName with
        | .error err => .error err
        | .ok client =>
          if (client.TokenEndpointAuthMethod = "client_secret_basic" ∨
              client.TokenEndpointAuthMethod = "client_secret_post") ∧
              env.compareHashAndPassword client.ClientSecretHash clientSecret = false then
            .error invalidClientCredentials
          else .ok client

/-- The two calls `token` ends in. -/
inductive Grant where
  /-- `h.doAuthorizationCode(req, client, code, codeVerifier)`. -/
  | authorizationCode (client : v1.OAuthClient) (code codeVerifier : String)
  /-- `h.doRefreshToken(req, client, refreshToken)`. -/
  | refreshToken (client : v1.OAuthClient) (refreshToken : String)
deriving DecidableEq, Repr

/-- The part of `token` between the secret check and the final calls: the two grant-type
checks and the choice of the call. -/
def handler.grant (h : handler) (req : Request) (client : v1.OAuthClient) : Except GoError Grant :=
  let grantType := req.FormValue "grant_type"
  if !h.oauthConfig.GrantTypesSupported.contains grantType then
    .error (invalidRequest ("grant_type must be one of " ++
      strings.Join h.oauthConfig.GrantTypesSupported ", " ++ ", not " ++ grantType))
  else if !client.GrantTypes.contains grantType then
    .error (invalidRequest "client is not allowed to use authorization_code grant type")
  else if grantType = "authorization_code" then
    .ok (.authorizationCode client (req.FormValue "code") (req.FormValue "code_verifier"))
  else .ok (.refreshToken client (req.FormValue "refresh_token"))

/-- `handler.token`. -/
def handler.token (h : handler) (env : Env) (w : World) (req : Request) : Outcome :=
  match authenticate env w.store req with
  | .error err => (.error err, w)
  | .ok client =>
    match h.grant req client with
    | .error err => (.error err, w)
    | .ok (.authorizationCode client code codeVerifier) =>
      doAuthorizationCode env w client code codeVerifier
    | .ok (.refreshToken client refreshToken) => doRefreshToken env w client refreshToken

/-! ## Worlds between the steps of a handler -/

/-- The record list after the delete call of `doAuthorizationCode`. -/
def afterDelete (env : Env) (w : World) (r : v1.OAuthAuthRequest) : World :=
  match w.store.deleteAuthRequest env r with
  | .error _ => w
  | .ok store => { w with store := store }

/-- The world `doRefreshToken` hands to `issue`: the store without the record `t`. -/
def afterRotation (w : World) (t : v1.OAuthToken) : World :=
  { store :=
      { clients := w.store.clients
        authRequests := w.store.authRequests
        tokens := w.store.tokens.filter (fun x => !(x.Namespace == t.Namespace && x.Name == t.Name)) }
    providerCalls := w.providerCalls }

/-! ## Example data -/

/-- An environment in which no store operation fails, bcrypt accepts the secret `s3cr3t`
for the hash `hash(s3cr3t)`, and the provider issues a token that expires one hour after
the clock. -/
def env0 : Env :=
  { compareHashAndPassword := fun hash password => hash == "hash(s3cr3t)" && password == "s3cr3t"
    getClientErr := none
    listErr := none
    deleteErr := none
    getTokenErr := none
    createErr := none
    NewAuthTokenWithExpiration := fun _ _ userID =>
      .ok ({ UserID := userID, ExpiresAt := 1000000000 + Hour }, "access-token")
    randText1 := "ABCDEFGHIJKLMNOPQRSTUVWXYZ"
    randText2 := "234567ABCDEFGHIJKLMNOPQRST"
    now := 1000000000 }

/-- The client `acme:web` of the spec's end-to-end scenario. -/
def client0 : v1.OAuthClient :=
  { Namespace := "acme", Name := "web", TokenEndpointAuthMethod := "client_secret_post",
    GrantTypes := ["authorization_code", "refresh_token"], ClientSecretHash := "hash(s3cr3t)" }

/-- The authorization request of the code `abc123` with the S256 challenge of the
verifier `xyz`. -/
def authRequest0 : v1.OAuthAuthRequest :=
  { Namespace := "acme", Name := "req-1",
    HashedAuthCode := "6ca13d52ca70c883e0f0bb101e425a89e8624de51db2d2392593af6a84118090",
    CodeChallenge := "Ngi8oeROpsTSaOttsCJgJpiSwLQrhrvx53pvoWw8koI", CodeChallengeMethod := "S256",
    AuthProviderNamespace := "default", AuthProviderName := "github", UserID := "42" }

def world0 : World :=
  { store := { clients := [client0], authRequests := [authRequest0], tokens := [] },
    providerCalls := [] }

def handler0 : handler :=
  { oauthConfig := { GrantTypesSupported := ["authorization_code", "refresh_token"] } }

/-- An environment like `env0` in which the delete call fails. -/
def envDeleteFails : Env := { env0 with deleteErr := some (.external "delete failed") }

/-- An environment like `envDeleteFails` with another random text. -/
def envDeleteFails2 : Env :=
  { envDeleteFails with randText1 := "ZZZZZZZZZZZZZZZZZZZZZZZZZZ" }

/-- A request of the client `acme:web` that presents the secret `wrong` in the form. -/
def requestWrongSecret : Request :=
  { parseFormErr := none
    form := [("grant_type", "refresh_token"), ("client_id", "acme:web"),
             ("client_secret", "wrong"), ("refresh_token", "r")]
    authorization := "" }

/-- A request of the client `acme:web` with the right secret and the grant type
`client_credentials`. -/
def requestClientCredentials : Request :=
  { parseFormErr := none
    form := [("grant_type", "client_credentials"), ("client_id", "acme:web"),
             ("client_secret", "s3cr3t")]
    authorization := "" }

/-- The record of the refresh token `refresh-0`, issued to `acme:web`. -/
def token0 : v1.OAuthToken :=
  { Namespace := "acme", Name := sha256Hex "refresh-0", ClientID := "web", UserID := "42",
    AuthProviderNamespace := "default", AuthProviderName := "github" }

/-- A world that holds the client `acme:web` and the record of `refresh-0`. -/
def world1 : World :=
  { store := { clients := [client0], authRequests := [], tokens := [token0] },
    providerCalls := [] }

/-- An environment like `env0` whose provider returns a token that expired five seconds
before the clock. -/
def envExpired : Env :=
  { env0 with
    NewAuthTokenWithExpiration := fun _ _ userID =>
      .ok ({ UserID := userID, ExpiresAt := 1000000000 - 5000000000 }, "access-token") }

/-- A world with two authorization requests for the code `abc123`. -/
def worldDuplicate : World :=
  { store := { clients := [client0],
               authRequests := [authRequest0, { authRequest0 with Name := "req-2" }],
               tokens := [] },
    providerCalls := [] }

/-- The world left by the exchange of `abc123` in `world0` under `env0`. -/
def world0Exchanged : World :=
  { store :=
      { clients := [client0]
        authRequests := []
        tokens := [{ Namespace := "acme", Name := sha256Hex "abcdefghijklmnopqrstuvwxyz234567abcdefghijklmnopqrst", ClientID := "web", UserID := "42", AuthProviderNamespace := "default", AuthProviderName := "github" }] }
    providerCalls := [{ AuthProviderNamespace := "default", AuthProviderName := "github",
                        UserID := "42", ttl := Hour }] }

/-- The header value of a client that follows the spec: `Basic`, a space, and the
standard base64 encoding of `urlescape(id) + ":" + secret`. -/
def basicAuthorizationHeader (id secret : String) : String :=
  "Basic " ++ base64.StdEncoding.EncodeToString (toBytes (url.QueryEscape id ++ ":" ++ secret))

/-- A request without a `client_id` form field that carries the Basic credentials of the
client `id`. -/
def basicRequest (id secret : String) : Request :=
  { parseFormErr := none
    form := [("grant_type", "refresh_token"), ("refresh_token", "refresh-0")]
    authorization := basicAuthorizationHeader id secret }

/-- A client `shop:web` with the secret `s3cr3t`. -/
def clientShop : v1.OAuthClient :=
  { Namespace := "shop", Name := "web", TokenEndpointAuthMethod := "client_secret_basic",
    GrantTypes := ["authorization_code", "refresh_token"], ClientSecretHash := "hash(s3cr3t)" }

/-- A world that holds the client `shop:web`. -/
def worldShop : World :=
  { store := { clients := [clientShop], authRequests := [], tokens := [] }, providerCalls := [] }

/-- A client whose only allowed grant type is `refresh_token`. -/
def clientRefreshOnly : v1.OAuthClient :=
  { Namespace := "acme", Name := "cli", TokenEndpointAuthMethod := "none",
    GrantTypes := ["refresh_token"], ClientSecretHash := "" }

/-- A request with the grant type `g`. -/
def grantRequest (g : String) : Request :=
  { parseFormErr := none, form := [("grant_type", g), ("client_id", "acme:cli")],
    authorization := "" }

/-- A server that also supports `client_credentials`. -/
def handlerClientCredentials : handler :=
  { oauthConfig :=
      { GrantTypesSupported := ["authorization_code", "refresh_token", "client_credentials"] } }

/-- An authorization request for the code `abc123` with the `plain` challenge `Verifier`. -/
def authRequestPlain : v1.OAuthAuthRequest :=
  { authRequest0 with CodeChallenge := "Verifier", CodeChallengeMethod := "plain" }

/-- A world whose only authorization request is `authRequestPlain`. -/
def worldPlain : World :=
  { store := { clients := [client0], authRequests := [authRequestPlain], tokens := [] },
    providerCalls := [] }

/-- An authorization request for the code `abc123` with a challenge and an empty method. -/
def authRequestNoMethod : v1.OAuthAuthRequest :=
  { authRequest0 with CodeChallenge := "Verifier", CodeChallengeMethod := "" }

/-- A world whose only authorization request is `authRequestNoMethod`. -/
def worldNoMethod : World :=
  { store := { clients := [client0], authRequests := [authRequestNoMethod], tokens := [] },
    providerCalls := [] }

/-- A request without a `client_id` form field and with the given `Authorization`
header. -/
def headerRequest (authorization : String) : Request :=
  { parseFormErr := none
    form := [("grant_type", "refresh_token"), ("refresh_token", "refresh-0")]
    authorization := authorization }

/-- An environment like `env0` whose identity provider fails. -/
def envProviderFails : Env :=
  { env0 with NewAuthTokenWithExpiration := fun _ _ _ => .error (.external "provider down") }

/-- An environment like `env0` in which `Create` fails. -/
def envCreateFails : Env := { env0 with createErr := some (.external "create failed") }

/-- A world whose only authorization request for the code `abc123` lives in the namespace
`other`, not in the namespace `acme` of the client `acme:web`. -/
def worldOtherNamespace : World :=
  { store := { clients := [client0],
               authRequests := [{ authRequest0 with Namespace := "other" }],
               tokens := [] },
    providerCalls := [] }

/-- The world `world0` with one more authorization request for the code `abc123`, in the
namespace `other`. -/
def worldTwoNamespaces : World :=
  { store := { clients := [client0],
               authRequests := [authRequest0, { authRequest0 with Namespace := "other" }],
               tokens := [] },
    providerCalls := [] }

/-- A client that may use `client_credentials` beside the two grants of `client0`. -/
def clientWithClientCredentials : v1.OAuthClient :=
  { client0 with GrantTypes := ["authorization_code", "refresh_token", "client_credentials"] }

/-- A world that holds the client `clientWithClientCredentials`. -/
def worldClientCredentials : World :=
  { store := { clients := [clientWithClientCredentials], authRequests := [], tokens := [] },
    providerCalls := [] }

/-- The record of a token with its `Spec.ClientID` blanked. -/
def eraseClientID (t : v1.OAuthToken) : v1.OAuthToken := { t with ClientID := "" }

/-- The world with the `Spec.ClientID` of every stored token blanked: two worlds with the
same image differ at most in the stored client ids. -/
def World.eraseClientIDs (w : World) : World :=
  { store :=
      { clients := w.store.clients
        authRequests := w.store.authRequests
        tokens := w.store.tokens.map eraseClientID }
    providerCalls := w.providerCalls }

/-- A second client of the namespace `acme`. -/
def clientCli : v1.OAuthClient :=
  { Namespace := "acme", Name := "cli", TokenEndpointAuthMethod := "none",
    GrantTypes := ["authorization_code", "refresh_token"], ClientSecretHash := "" }

/-- The world `world1` with the record of `refresh-0` issued to the client `cli` instead of
`web`. -/
def world1Cli : World :=
  { store := { clients := [client0], authRequests := [],
               tokens := [{ token0 with ClientID := "cli" }] },
    providerCalls := [] }

/-- The client `acme:web` registered with `client_secret_basic` and the secret `s3cr3tX`. -/
def clientBasic : v1.OAuthClient :=
  { Namespace := "acme", Name := "web", TokenEndpointAuthMethod := "client_secret_basic",
    GrantTypes := ["authorization_code", "refresh_token"], ClientSecretHash := "hash(s3cr3tX)" }

/-- An environment like `env0` in which bcrypt accepts the secret `s3cr3tX`, and no other,
for the hash `hash(s3cr3tX)`. -/
def envSecretX : Env :=
  { env0 with
    compareHashAndPassword := fun hash password => hash == "hash(s3cr3tX)" && password == "s3cr3tX" }

/-- A world that holds the client `clientBasic` and the record of `refresh-0`. -/
def worldBasic : World :=
  { store := { clients := [clientBasic], authRequests := [], tokens := [token0] },
    providerCalls := [] }

/-- Whether `strings.Trim(p, cutset)` leaves `p` as it is: `p` is empty, or neither its
first nor its last character occurs in `cutset`. -/
def trimRemovesNothing (p cutset : String) : Bool :=
  !(p.data.head?.any (fun c => cutset.data.contains c)) &&
    !(p.data.getLast?.any (fun c => cutset.data.contains c))

/-! ## Test vectors of the library functions -/

theorem sha256Hex_abc :
    sha256Hex "abc" = "ba7816bf8f01cfea414140de5dae2223b00361a396177a9cb410ff61f20015ad" := by
  decide!

theorem sha256Hex_empty :
    sha256Hex "" = "e3b0c44298fc1c149afbf4c8996fb92427ae41e4649b934ca495991b7852b855" := by
  decide!

theorem stdEncoding_encode_unpadded :
    base64.StdEncoding.EncodeToString (toBytes "a:b") = "YTpi" := by
  decide!

theorem stdEncoding_encode_padded :
    base64.StdEncoding.EncodeToString (toBytes "ab") = "YWI=" := by
  decide!

theorem stdEncoding_decode_padded :
    base64.StdEncoding.DecodeString "YWI=" = some (toBytes "ab") := by
  decide!

theorem stdEncoding_decode_unpadded :
    base64.StdEncoding.DecodeString "YTpi" = some (toBytes "a:b") := by
  decide!

theorem stdEncoding_decode_short :
    base64.StdEncoding.DecodeString "YTp" = none := by
  decide!

theorem stdEncoding_decode_one_byte :
    base64.StdEncoding.DecodeString "YQ==" = some (toBytes "a") := by
  decide!

theorem stdEncoding_decode_inner_padding :
    base64.StdEncoding.DecodeString "YQ==YQ==" = none := by
  decide!

theorem rawURLEncoding_sha256_xyz :
    base64.RawURLEncoding.EncodeToString (sha256.Sum256 (toBytes "xyz")) = "Ngi8oeROpsTSaOttsCJgJpiSwLQrhrvx53pvoWw8koI" := by
  decide!

theorem queryEscape_vector :
    url.QueryEscape "a b:c/d~" = "a+b%3Ac%2Fd~" := by
  decide!

theorem queryUnescape_vector :
    url.QueryUnescape "a+b%3Ac%2fd~" = some "a b:c/d~" := by
  decide!

theorem queryUnescape_truncated :
    url.QueryUnescape "a%3" = none := by
  decide!

theorem trim_is_a_cutset :
    strings.Trim "Basic YTpi" "Basic " = "YTp" := by
  decide!

theorem lastIndex_vector :
    strings.LastIndex "a:b:c" ':' = 3 := by
  decide!

theorem lastIndex_absent :
    strings.LastIndex "abc" ':' = -1 := by
  decide!

theorem cut_vector :
    strings.Cut "a:b:c" ':' = some ("a", "b:c") := by
  decide!

theorem join_vector :
    strings.Join ["a", "b"] ", " = "a, b" := by
  decide!

/-! ## Theorems -/

/-- The provider call that `issue` logs. -/
theorem issue_providerCalls (env : Env) (w : World) (c : v1.OAuthClient)
    (pns pname uid msg : String) :
    (issue env w c pns pname uid msg).2.providerCalls =
      w.providerCalls ++ [{ AuthProviderNamespace := pns, AuthProviderName := pname,
                            UserID := uid, ttl := Hour }] := by
  unfold issue
  cases env.NewAuthTokenWithExpiration pns pname uid with
  | error e => simp
  | ok p =>
    obtain ⟨tkn, accessToken⟩ := p
    simp only
    split <;> simp

/-- A failure of `createToken` leaves no store, a success appends the record. -/
theorem createToken_ok (env : Env) (s s1 : Store) (t : v1.OAuthToken)
    (h : s.createToken env t = .ok s1) :
    env.createErr = none ∧
    s.tokens.any (fun x => x.Namespace == t.Namespace && x.Name == t.Name) = false ∧
    s1 = { s with tokens := s.tokens ++ [t] } := by
  unfold Store.createToken at h
  split at h
  · cases h
  · rename_i hc
    split at h
    · cases h
    · rename_i hany
      cases h
      exact ⟨hc, by simpa using hany, rfl⟩

/-- A successful `issue`: the provider answered, the response carries its access token and
the fresh refresh token, and the store gained exactly the record of that refresh token. -/
theorem issue_ok (env : Env) (w : World) (c : v1.OAuthClient) (pns pname uid msg : String)
    (resp : types.OAuthToken) (h : (issue env w c pns pname uid msg).1 = .ok resp) :
    ∃ tkn accessToken,
      env.NewAuthTokenWithExpiration pns pname uid = .ok (tkn, accessToken) ∧
      resp = { AccessToken := accessToken, TokenType := "bearer",
               ExpiresIn := expiresIn env.now tkn.ExpiresAt,
               RefreshToken := newRefreshToken env } ∧
      (issue env w c pns pname uid msg).2.store =
        { w.store with tokens := w.store.tokens ++
            [newOAuthToken c (newRefreshToken env) tkn.UserID pns pname] } ∧
      w.store.tokens.any (fun x => x.Namespace == c.Namespace &&
        x.Name == sha256Hex (newRefreshToken env)) = false := by
  unfold issue at h ⊢
  cases hp : env.NewAuthTokenWithExpiration pns pname uid with
  | error e => simp [hp] at h
  | ok p =>
    obtain ⟨tkn, accessToken⟩ := p
    simp only [hp] at h ⊢
    split at h
    · cases h
    · rename_i store hcreate
      obtain ⟨_, hany, hs⟩ := createToken_ok _ _ _ _ hcreate
      refine ⟨tkn, accessToken, rfl, ?_, ?_, hany⟩
      · simpa using h.symm
      · simp only [hcreate, hs]

/-- A successful `doAuthorizationCode`: the code is not empty, the lookup found exactly
one record, the PKCE step passed, and the rest is a successful `issue` on the world left
by the delete call. -/
theorem doAuthorizationCode_ok (env : Env) (w : World) (c : v1.OAuthClient)
    (code codeVerifier : String) (resp : types.OAuthToken)
    (h : (doAuthorizationCode env w c code codeVerifier).1 = .ok resp) :
    code ≠ "" ∧ env.listErr = none ∧
    ∃ r, w.store.authRequests.filter (fun x => x.HashedAuthCode == sha256Hex code) = [r] ∧
      pkce r codeVerifier = none ∧
      doAuthorizationCode env w c code codeVerifier =
        issue env (afterDelete env w r) c r.AuthProviderNamespace r.AuthProviderName r.UserID
          "failed to create oauth token" := by
  have hcode : code ≠ "" := by
    intro hc
    simp [doAuthorizationCode, hc] at h
  have hl : env.listErr = none := by
    cases hl : env.listErr with
    | none => rfl
    | some e => simp [doAuthorizationCode, hcode, Store.listAuthRequests, hl] at h
  refine ⟨hcode, hl, ?_⟩
  unfold doAuthorizationCode at h ⊢
  simp only [hcode, if_false, Store.listAuthRequests, hl] at h ⊢
  generalize w.store.authRequests.filter (fun x => x.HashedAuthCode == sha256Hex code) = items
    at h ⊢
  match items, h with
  | [], h => simp at h
  | _ :: _ :: _, h => simp at h
  | [r], h =>
    refine ⟨r, rfl, ?_⟩
    simp only at h ⊢
    cases hp : pkce r codeVerifier with
    | some e => simp [hp] at h
    | none => exact ⟨rfl, rfl⟩

/-- C1. PKCE with method S256. For a call of `doAuthorizationCode` whose lookup finds
exactly the record `r`, with a non-empty challenge and method `S256`: the PKCE step passes
if and only if the stored challenge is the unpadded base64url text of the SHA-256 digest of
the presented verifier; when it passes the provider is asked for a token for the record's
provider and user; when it does not, the result is the 400 `invalid_request` error
"code_verifier is invalid", the provider is not called and no `OAuthToken` is created. -/
theorem pkce_S256 (env : Env) (w : World) (oauthClient : v1.OAuthClient)
    (code codeVerifier : String) (r : v1.OAuthAuthRequest)
    (hcode : code ≠ "") (hlist : env.listErr = none)
    (hone : w.store.authRequests.filter (fun x => x.HashedAuthCode == sha256Hex code) = [r])
    (hchallenge : r.CodeChallenge ≠ "") (hmethod : r.CodeChallengeMethod = "S256") :
    (pkce r codeVerifier = none ↔
      r.CodeChallenge =
        base64.RawURLEncoding.EncodeToString (sha256.Sum256 (toBytes codeVerifier))) ∧
    (r.CodeChallenge =
        base64.RawURLEncoding.EncodeToString (sha256.Sum256 (toBytes codeVerifier)) →
      (doAuthorizationCode env w oauthClient code codeVerifier).2.providerCalls =
        w.providerCalls ++ [{ AuthProviderNamespace := r.AuthProviderNamespace,
                              AuthProviderName := r.AuthProviderName,
                              UserID := r.UserID, ttl := Hour }]) ∧
    (r.CodeChallenge ≠
        base64.RawURLEncoding.EncodeToString (sha256.Sum256 (toBytes codeVerifier)) →
      (doAuthorizationCode env w oauthClient code codeVerifier).1 =
        .error (.ErrBadRequest { Code := "invalid_request", Description := "code_verifier is invalid" }) ∧
      (GoError.ErrBadRequest
        { Code := "invalid_request", Description := "code_verifier is invalid" }).status = some 400 ∧
      (doAuthorizationCode env w oauthClient code codeVerifier).2.providerCalls = w.providerCalls ∧
      (doAuthorizationCode env w oauthClient code codeVerifier).2.store.tokens = w.store.tokens) := by
  have hp : pkce r codeVerifier = none ↔ r.CodeChallenge =
      base64.RawURLEncoding.EncodeToString (sha256.Sum256 (toBytes codeVerifier)) := by
    simp [pkce, hchallenge, hmethod, invalidRequest]
  refine ⟨hp, ?_, ?_⟩
  · intro heq
    have hp1 := hp.mpr heq
    simp only [doAuthorizationCode, Store.listAuthRequests, hlist, hone, hcode, if_false, hp1]
    unfold issue
    cases env.NewAuthTokenWithExpiration r.AuthProviderNamespace r.AuthProviderName r.UserID with
    | error e => cases hd : w.store.deleteAuthRequest env r <;> simp
    | ok p =>
      obtain ⟨tkn, accessToken⟩ := p
      cases hd : w.store.deleteAuthRequest env r <;> simp <;> split <;> simp
  · intro hne
    have hp2 : pkce r codeVerifier = some (invalidRequest "code_verifier is invalid") := by
      simp [pkce, hchallenge, hmethod, hne]
    simp only [doAuthorizationCode, Store.listAuthRequests, hlist, hone, hcode, if_false, hp2]
    refine ⟨rfl, rfl, ?_, ?_⟩
    · cases hd : w.store.deleteAuthRequest env r <;> simp
    · cases hd : w.store.deleteAuthRequest env r <;> simp
      rename_i s
      simp only [Store.deleteAuthRequest] at hd
      split at hd
      · cases hd
      · cases hd; rfl

/-- The hypotheses of `pkce_S256` hold for the spec's scenario (code `abc123`, challenge of
the verifier `xyz`); there the verifier `xyz` passes the PKCE step and the verifier `wrong`
is rejected without a provider call. -/
theorem pkce_S256_witness :
    ("abc123" ≠ "" ∧ env0.listErr = none ∧
      world0.store.authRequests.filter (fun x => x.HashedAuthCode == sha256Hex "abc123") =
        [authRequest0] ∧
      authRequest0.CodeChallenge ≠ "" ∧ authRequest0.CodeChallengeMethod = "S256") ∧
    pkce authRequest0 "xyz" = none ∧
    (doAuthorizationCode env0 world0 client0 "abc123" "wrong").1 =
      .error (.ErrBadRequest { Code := "invalid_request", Description := "code_verifier is invalid" }) ∧
    (doAuthorizationCode env0 world0 client0 "abc123" "wrong").2.providerCalls = [] :=
  ⟨⟨by decide, rfl, by decide!, by decide, rfl⟩,
   (pkce_S256 env0 world0 client0 "abc123" "xyz" authRequest0
      (by decide) rfl (by decide!) (by decide) rfl).1.mpr (by decide!),
   ((pkce_S256 env0 world0 client0 "abc123" "wrong" authRequest0
      (by decide) rfl (by decide!) (by decide) rfl).2.2 (by decide!)).1,
   ((pkce_S256 env0 world0 client0 "abc123" "wrong" authRequest0
      (by decide) rfl (by decide!) (by decide) rfl).2.2 (by decide!)).2.2.1⟩

/-- The authorization requests that are left once the delete call of `doAuthorizationCode`
for the only record found for `code` has succeeded: none has the hash of `code`. -/
theorem filter_after_delete (l : List v1.OAuthAuthRequest) (hash : String)
    (r : v1.OAuthAuthRequest) (h : l.filter (fun x => x.HashedAuthCode == hash) = [r]) :
    (l.filter (fun x => !(x.Namespace == r.Namespace && x.Name == r.Name))).filter
      (fun x => x.HashedAuthCode == hash) = [] := by
  rw [List.filter_filter]
  have hcomm : (fun x : v1.OAuthAuthRequest =>
      (x.HashedAuthCode == hash) && !(x.Namespace == r.Namespace && x.Name == r.Name)) =
      (fun x => (!(x.Namespace == r.Namespace && x.Name == r.Name)) && (x.HashedAuthCode == hash)) := by
    funext x
    exact Bool.and_comm _ _
  rw [hcomm, ← List.filter_filter, h]
  simp

/-- C2 (as amended). An authorization code is single use when the delete call succeeds:
if `doAuthorizationCode` with code `c` succeeds and its delete call did not fail, then any
later `doAuthorizationCode` with the same code on the resulting world, by any client and
with any verifier, whose lookup does not fail, returns the 400 `invalid_request` error
"code is invalid" and changes nothing. -/
theorem code_single_use (env env2 : Env) (w : World) (c c2 : v1.OAuthClient)
    (code v v2 : String) (resp : types.OAuthToken)
    (h : (doAuthorizationCode env w c code v).1 = .ok resp)
    (hdel : env.deleteErr = none) (hlist2 : env2.listErr = none) :
    doAuthorizationCode env2 (doAuthorizationCode env w c code v).2 c2 code v2 =
      (.error (.ErrBadRequest { Code := "invalid_request", Description := "code is invalid" }),
       (doAuthorizationCode env w c code v).2) := by
  obtain ⟨hcode, _, r, hone, _, heq⟩ := doAuthorizationCode_ok env w c code v resp h
  rw [heq] at h
  obtain ⟨tkn, accessToken, _, _, hstore, _⟩ := issue_ok _ _ _ _ _ _ _ _ h
  rw [heq]
  have hreq : (issue env (afterDelete env w r) c r.AuthProviderNamespace r.AuthProviderName
      r.UserID "failed to create oauth token").2.store.authRequests =
      w.store.authRequests.filter (fun x => !(x.Namespace == r.Namespace && x.Name == r.Name)) := by
    rw [hstore]
    simp [afterDelete, Store.deleteAuthRequest, hdel]
  have hnone := filter_after_delete _ _ _ hone
  conv_lhs => unfold doAuthorizationCode
  simp only [hcode, if_false, Store.listAuthRequests, hlist2, hreq, hnone]
  rfl

/-- The hypotheses of `code_single_use` hold in the spec's scenario: the first exchange of
`abc123` succeeds, and the identical second request is rejected with "code is invalid". -/
theorem code_single_use_witness :
    ((doAuthorizationCode env0 world0 client0 "abc123" "xyz").1 =
        .ok { AccessToken := "access-token", TokenType := "bearer", ExpiresIn := 3600,
              RefreshToken := "abcdefghijklmnopqrstuvwxyz234567abcdefghijklmnopqrst" } ∧
      env0.deleteErr = none ∧ env0.listErr = none) ∧
    (doAuthorizationCode env0 (doAuthorizationCode env0 world0 client0 "abc123" "xyz").2
        client0 "abc123" "xyz").1 =
      .error (.ErrBadRequest { Code := "invalid_request", Description := "code is invalid" }) :=
  ⟨⟨by decide!, rfl, rfl⟩,
   congrArg Prod.fst (code_single_use env0 env0 world0 client0 client0 "abc123" "xyz" "xyz"
     { AccessToken := "access-token", TokenType := "bearer", ExpiresIn := 3600,
       RefreshToken := "abcdefghijklmnopqrstuvwxyz234567abcdefghijklmnopqrst" }
     (by decide!) rfl rfl)⟩

/-- C2 (counterexample). When the delete call fails the record stays in the store: the
exchange of `abc123` succeeds, and a second exchange of the same code on the resulting
world succeeds again instead of failing with "code is invalid". -/
theorem code_reuse_when_delete_fails :
    (doAuthorizationCode envDeleteFails world0 client0 "abc123" "xyz").1 =
      .ok { AccessToken := "access-token", TokenType := "bearer", ExpiresIn := 3600,
            RefreshToken := "abcdefghijklmnopqrstuvwxyz234567abcdefghijklmnopqrst" } ∧
    (doAuthorizationCode envDeleteFails2
        (doAuthorizationCode envDeleteFails world0 client0 "abc123" "xyz").2
        client0 "abc123" "xyz").1 =
      .ok { AccessToken := "access-token", TokenType := "bearer", ExpiresIn := 3600,
            RefreshToken := "zzzzzzzzzzzzzzzzzzzzzzzzzz234567abcdefghijklmnopqrst" } := by
  decide!

/-- The secret check of `authenticate` on the credentials the request was resolved to.
When `credentials` resolves the request to `(clientID, clientSecret)`, the store holds the
client `clientID` names, that client's `TokenEndpointAuthMethod` is `client_secret_basic`
or `client_secret_post`, and bcrypt rejects `clientSecret` for the stored hash, then
`token` returns 401 "Invalid client credentials" and leaves the world as it was; the error
comes from `authenticate`, before the grant type is read. For form credentials
`clientSecret` is the `client_secret` field; for Basic credentials it is what is left of
the secret after `strings.Trim`. -/
theorem secret_mismatch_unauthorized (h : handler) (env : Env) (w : World) (req : Request)
    (clientID clientSecret clientNamespace clientName : String) (client : v1.OAuthClient)
    (hparse : req.parseFormErr = none)
    (hcreds : credentials req = .ok (clientID, clientSecret))
    (hcut : strings.Cut clientID ':' = some (clientNamespace, clientName))
    (hget : w.store.getClient env clientNamespace clientName = .ok client)
    (hmethod : client.TokenEndpointAuthMethod = "client_secret_basic" ∨
      client.TokenEndpointAuthMethod = "client_secret_post")
    (hsecret : env.compareHashAndPassword client.ClientSecretHash clientSecret = false) :
    authenticate env w.store req = .error (.ErrHTTP 401 "Invalid client credentials") ∧
    h.token env w req = (.error (.ErrHTTP 401 "Invalid client credentials"), w) ∧
    (GoError.ErrHTTP 401 "Invalid client credentials").status = some 401 := by
  have hauth : authenticate env w.store req =
      .error (.ErrHTTP 401 "Invalid client credentials") := by
    simp only [authenticate, hparse, hcreds, hcut, hget]
    rw [if_pos ⟨hmethod, hsecret⟩]
    rfl
  refine ⟨hauth, ?_, rfl⟩
  simp only [handler.token, hauth]

/-- The hypotheses of `secret_mismatch_unauthorized` hold for the client `acme:web` of
`world0` and a request that presents the secret `wrong`. -/
theorem secret_mismatch_unauthorized_witness :
    (requestWrongSecret.parseFormErr = none ∧
      credentials requestWrongSecret = .ok ("acme:web", "wrong") ∧
      strings.Cut "acme:web" ':' = some ("acme", "web") ∧
      world0.store.getClient env0 "acme" "web" = .ok client0 ∧
      client0.TokenEndpointAuthMethod = "client_secret_post" ∧
      env0.compareHashAndPassword client0.ClientSecretHash "wrong" = false) ∧
    handler0.token env0 world0 requestWrongSecret =
      (.error (.ErrHTTP 401 "Invalid client credentials"), world0) :=
  ⟨⟨rfl, by decide!, by decide!, by decide!, by decide!, by decide!⟩,
   (secret_mismatch_unauthorized handler0 env0 world0 requestWrongSecret "acme:web" "wrong"
      "acme" "web" client0 rfl (by decide!) (by decide!) (by decide!)
      (Or.inr (by decide!)) (by decide!)).2.1⟩

/-- C4. Grant-type validation. For a request that `authenticate` resolves to `client`,
with `g` its `grant_type`: `token` reaches one of its two final calls exactly when `g` is
in the server's `GrantTypesSupported` and in the client's `GrantTypes`; it is then the
call of `doAuthorizationCode` when `g` is `authorization_code` and of `doRefreshToken`
otherwise. In every other case `token` returns a 400 `invalid_request` error and the
world is unchanged. -/
theorem grant_type_validation (h : handler) (env : Env) (w : World) (req : Request)
    (client : v1.OAuthClient) (hauth : authenticate env w.store req = .ok client) :
    ((∃ g, h.grant req client = .ok g) ↔
      (req.FormValue "grant_type" ∈ h.oauthConfig.GrantTypesSupported ∧
        req.FormValue "grant_type" ∈ client.GrantTypes)) ∧
    ((req.FormValue "grant_type" ∈ h.oauthConfig.GrantTypesSupported ∧
        req.FormValue "grant_type" ∈ client.GrantTypes) →
      h.token env w req =
        if req.FormValue "grant_type" = "authorization_code" then
          doAuthorizationCode env w client (req.FormValue "code") (req.FormValue "code_verifier")
        else doRefreshToken env w client (req.FormValue "refresh_token")) ∧
    (¬(req.FormValue "grant_type" ∈ h.oauthConfig.GrantTypesSupported ∧
        req.FormValue "grant_type" ∈ client.GrantTypes) →
      ∃ d, h.grant req client =
          .error (.ErrBadRequest { Code := "invalid_request", Description := d }) ∧
        h.token env w req =
          (.error (.ErrBadRequest { Code := "invalid_request", Description := d }), w) ∧
        (GoError.ErrBadRequest { Code := "invalid_request", Description := d }).status = some 400) := by
  by_cases hs : req.FormValue "grant_type" ∈ h.oauthConfig.GrantTypesSupported
  · by_cases hc : req.FormValue "grant_type" ∈ client.GrantTypes
    · have hs1 : ¬ ((!h.oauthConfig.GrantTypesSupported.contains (req.FormValue "grant_type")) = true) := by
        simpa using hs
      have hc1 : ¬ ((!client.GrantTypes.contains (req.FormValue "grant_type")) = true) := by
        simpa using hc
      by_cases ha : req.FormValue "grant_type" = "authorization_code"
      · have hg : h.grant req client = .ok (.authorizationCode client (req.FormValue "code")
            (req.FormValue "code_verifier")) := by
          simp only [handler.grant]
          rw [if_neg hs1, if_neg hc1, if_pos ha]
        refine ⟨⟨fun _ => ⟨hs, hc⟩, fun _ => ⟨_, hg⟩⟩, fun _ => ?_, fun hn => absurd ⟨hs, hc⟩ hn⟩
        simp only [handler.token, hauth, hg]
        rw [if_pos ha]
      · have hg : h.grant req client =
            .ok (.refreshToken client (req.FormValue "refresh_token")) := by
          simp only [handler.grant]
          rw [if_neg hs1, if_neg hc1, if_neg ha]
        refine ⟨⟨fun _ => ⟨hs, hc⟩, fun _ => ⟨_, hg⟩⟩, fun _ => ?_, fun hn => absurd ⟨hs, hc⟩ hn⟩
        simp only [handler.token, hauth, hg]
        rw [if_neg ha]
    · have hg : h.grant req client = .error (invalidRequest
          "client is not allowed to use authorization_code grant type") := by
        simp [handler.grant, hs, hc]
      refine ⟨⟨fun ⟨g, hok⟩ => ?_, fun hb => absurd hb.2 hc⟩, fun hb => absurd hb.2 hc,
        fun _ => ⟨_, hg, ?_, rfl⟩⟩
      · rw [hg] at hok
        cases hok
      · simp only [handler.token, hauth, hg]
        rfl
  · have hg : h.grant req client = .error (invalidRequest ("grant_type must be one of " ++
        strings.Join h.oauthConfig.GrantTypesSupported ", " ++ ", not " ++
        req.FormValue "grant_type")) := by
      simp [handler.grant, hs]
    refine ⟨⟨fun ⟨g, hok⟩ => ?_, fun hb => absurd hb.1 hs⟩, fun hb => absurd hb.1 hs,
      fun _ => ⟨_, hg, ?_, rfl⟩⟩
    · rw [hg] at hok
      cases hok
    · simp only [handler.token, hauth, hg]
      rfl

/-- The hypothesis of `grant_type_validation` holds for `acme:web` presenting its secret;
its grant type `client_credentials` is not supported and is rejected with a 400. -/
theorem grant_type_validation_witness :
    authenticate env0 world0.store requestClientCredentials = .ok client0 ∧
    ∃ d, handler0.token env0 world0 requestClientCredentials =
      (.error (.ErrBadRequest { Code := "invalid_request", Description := d }), world0) :=
  ⟨by decide!,
   let ⟨d, _, ht, _⟩ := (grant_type_validation handler0 env0 world0 requestClientCredentials
      client0 (by decide!)).2.2 (by decide!)
   ⟨d, ht⟩⟩

/-- The record `getToken` returns has the key that was asked for. -/
theorem getToken_ok (env : Env) (s : Store) (ns name : String) (t : v1.OAuthToken)
    (h : s.getToken env ns name = .ok t) :
    env.getTokenErr = none ∧ t ∈ s.tokens ∧ t.Namespace = ns ∧ t.Name = name := by
  unfold Store.getToken at h
  split at h
  · cases h
  · rename_i herr
    split at h
    · rename_i t1 hfind
      cases h
      have hp := List.find?_some hfind
      have hm := List.mem_of_find?_eq_some hfind
      simp only [Bool.and_eq_true, beq_iff_eq] at hp
      exact ⟨herr, hm, hp.1, hp.2⟩
    · cases h

/-- The result of `issue` is a success or a wrapped error, never an HTTP error. -/
theorem issue_result (env : Env) (w : World) (c : v1.OAuthClient) (pns pname uid msg : String) :
    (∃ resp, (issue env w c pns pname uid msg).1 = .ok resp) ∨
    (∃ m err, (issue env w c pns pname uid msg).1 = .error (.Errorf m err)) := by
  unfold issue
  cases env.NewAuthTokenWithExpiration pns pname uid with
  | error e => exact Or.inr ⟨_, _, rfl⟩
  | ok p =>
    obtain ⟨tkn, accessToken⟩ := p
    simp only
    split
    · exact Or.inr ⟨_, _, rfl⟩
    · exact Or.inl ⟨_, rfl⟩

/-- A successful `doRefreshToken`: the token is not empty, its record was found and
deleted, and the rest is a successful `issue` on the store without that record. -/
theorem doRefreshToken_ok (env : Env) (w : World) (c : v1.OAuthClient) (refreshToken : String)
    (resp : types.OAuthToken) (h : (doRefreshToken env w c refreshToken).1 = .ok resp) :
    refreshToken ≠ "" ∧ env.deleteErr = none ∧
    ∃ t, w.store.getToken env c.Namespace (sha256Hex refreshToken) = .ok t ∧
      doRefreshToken env w c refreshToken =
        issue env (afterRotation w t) c t.AuthProviderNamespace t.AuthProviderName t.UserID
          "failed to create new oauth token" := by
  have hrt : refreshToken ≠ "" := by
    intro hc
    simp [doRefreshToken, hc] at h
  unfold doRefreshToken at h ⊢
  simp only [hrt, if_false] at h ⊢
  cases hg : w.store.getToken env c.Namespace (sha256Hex refreshToken) with
  | error e => simp [hg] at h
  | ok t =>
    simp only [hg] at h ⊢
    unfold Store.deleteToken at h ⊢
    cases hd : env.deleteErr with
    | some e => simp [hd] at h
    | none => exact ⟨hrt, rfl, t, rfl, by simp only [afterRotation]⟩

/-- C5. Refresh-token rotation invalidates the old token. If `doRefreshToken` with the
refresh token `r` succeeds and the refresh token it returns differs from `r` (and the two
do not collide under SHA-256, the key of the store being the digest), then a second
`doRefreshToken` with the same `r` by the same client on the resulting world, whatever
the environment, returns the 400 `invalid_request` error "refresh_token is invalid" and
changes nothing. -/
theorem refresh_rotation_invalidates_old (env env2 : Env) (w : World) (c : v1.OAuthClient)
    (r : String) (resp : types.OAuthToken)
    (h : (doRefreshToken env w c r).1 = .ok resp)
    (hfresh : resp.RefreshToken ≠ r)
    (hcollision : sha256Hex resp.RefreshToken = sha256Hex r → resp.RefreshToken = r) :
    doRefreshToken env2 (doRefreshToken env w c r).2 c r =
      (.error (.ErrBadRequest { Code := "invalid_request", Description := "refresh_token is invalid" }),
       (doRefreshToken env w c r).2) ∧
    (GoError.ErrBadRequest
      { Code := "invalid_request", Description := "refresh_token is invalid" }).status = some 400 := by
  refine ⟨?_, rfl⟩
  obtain ⟨hr, _, t, hget, heq⟩ := doRefreshToken_ok env w c r resp h
  obtain ⟨_, _, htns, htname⟩ := getToken_ok _ _ _ _ _ hget
  rw [heq] at h
  obtain ⟨tkn, accessToken, _, hresp, hstore, _⟩ := issue_ok _ _ _ _ _ _ _ _ h
  have hdigest : sha256Hex (newRefreshToken env) ≠ sha256Hex r := by
    intro hd
    apply hfresh
    rw [hresp] at hcollision ⊢
    exact hcollision hd
  rw [heq]
  have hfind : (issue env (afterRotation w t) c t.AuthProviderNamespace t.AuthProviderName
      t.UserID "failed to create new oauth token").2.store.tokens.find?
      (fun x => x.Namespace == c.Namespace && x.Name == sha256Hex r) = none := by
    rw [hstore]
    rw [List.find?_eq_none]
    intro x hx
    simp only [afterRotation, htns, htname, List.mem_append, List.mem_filter,
      List.mem_singleton] at hx
    rcases hx with ⟨_, hx⟩ | hx
    · simp only [Bool.not_eq_true', Bool.and_eq_false_iff, beq_eq_false_iff_ne, ne_eq] at hx
      simp only [Bool.and_eq_true, beq_iff_eq, not_and]
      intro hns hname
      rcases hx with hx | hx
      · exact hx hns
      · exact hx hname
    · subst hx
      simp [newOAuthToken, hdigest]
  conv_lhs => unfold doRefreshToken
  simp only [hr, if_false, Store.getToken, hfind]
  cases env2.getTokenErr <;> rfl

/-- The hypotheses of `refresh_rotation_invalidates_old` hold for the refresh token
`refresh-0` in `world1`: the rotation succeeds, and the second use of `refresh-0` is
rejected. -/
theorem refresh_rotation_invalidates_old_witness :
    ((doRefreshToken env0 world1 client0 "refresh-0").1 =
        .ok { AccessToken := "access-token", TokenType := "bearer", ExpiresIn := 3600,
              RefreshToken := "abcdefghijklmnopqrstuvwxyz234567abcdefghijklmnopqrst" } ∧
      "abcdefghijklmnopqrstuvwxyz234567abcdefghijklmnopqrst" ≠ "refresh-0" ∧
      (sha256Hex "abcdefghijklmnopqrstuvwxyz234567abcdefghijklmnopqrst" = sha256Hex "refresh-0" →
        "abcdefghijklmnopqrstuvwxyz234567abcdefghijklmnopqrst" = "refresh-0")) ∧
    (doRefreshToken env0 (doRefreshToken env0 world1 client0 "refresh-0").2 client0 "refresh-0").1 =
      .error (.ErrBadRequest { Code := "invalid_request", Description := "refresh_token is invalid" }) :=
  ⟨⟨by decide!, by decide!, by decide!⟩,
   congrArg Prod.fst (refresh_rotation_invalidates_old env0 env0 world1 client0 "refresh-0"
     { AccessToken := "access-token", TokenType := "bearer", ExpiresIn := 3600,
       RefreshToken := "abcdefghijklmnopqrstuvwxyz234567abcdefghijklmnopqrst" }
     (by decide!) (by decide!) (by decide!)).1⟩

/-- Truncating to milliseconds and then to seconds is truncating to seconds. -/
theorem tdiv_milliseconds_seconds (d : Int) :
    (d.tdiv 1000000).tdiv 1000 = d.tdiv 1000000000 := by
  have hpos : ∀ e : Int, 0 ≤ e → (e.tdiv 1000000).tdiv 1000 = e.tdiv 1000000000 := by
    intro e he
    have h1 : 0 ≤ e.tdiv 1000000 := Int.tdiv_nonneg he (by norm_num)
    rw [Int.tdiv_eq_ediv h1 (by norm_num), Int.tdiv_eq_ediv he (by norm_num),
      Int.tdiv_eq_ediv he (by norm_num)]
    omega
  rcases Int.le_total 0 d with h | h
  · exact hpos d h
  · have hne := hpos (-d) (by omega)
    simp only [Int.neg_tdiv] at hne
    omega

/-- The `expires_in` of a duration that is not negative is not negative. -/
theorem expiresIn_nonneg (now expiresAt : Int) (h : now ≤ expiresAt) :
    0 ≤ expiresIn now expiresAt := by
  unfold expiresIn
  apply Int.tdiv_nonneg _ (by norm_num)
  apply Int.tdiv_nonneg _ (by norm_num)
  unfold Sub
  split
  · norm_num
  · split <;> omega

/-- C8 (counterexample). With a provider whose token expired five seconds before the
response time, the exchange succeeds and writes `expires_in = -5`. -/
theorem expires_in_negative :
    (doAuthorizationCode envExpired world0 client0 "abc123" "xyz").1 =
      .ok { AccessToken := "access-token", TokenType := "bearer", ExpiresIn := -5,
            RefreshToken := "abcdefghijklmnopqrstuvwxyz234567abcdefghijklmnopqrst" } ∧
    ¬ (0 : Int) ≤ -5 := by
  decide!

/-- C8 (as amended). Whenever `doAuthorizationCode` or `doRefreshToken` succeeds, the
provider returned a token `tkn` with the access token of the response, and `expires_in`
is the `Duration` from the response time to `tkn.ExpiresAt` (the difference, saturated to
the `int64` range of nanoseconds) truncated toward zero to whole seconds; it is the
truncated difference itself when that fits an `int64`, and it is not negative when the
expiry is not before the response time. -/
theorem expires_in_whole_seconds (env : Env) (w : World) (c : v1.OAuthClient)
    (code codeVerifier refreshToken : String) (resp : types.OAuthToken)
    (h : (doAuthorizationCode env w c code codeVerifier).1 = .ok resp ∨
      (doRefreshToken env w c refreshToken).1 = .ok resp) :
    ∃ tkn pns pname uid,
      env.NewAuthTokenWithExpiration pns pname uid = .ok (tkn, resp.AccessToken) ∧
      resp.ExpiresIn = (Sub tkn.ExpiresAt env.now).tdiv 1000000000 ∧
      (-(2 ^ 63) ≤ tkn.ExpiresAt - env.now ∧ tkn.ExpiresAt - env.now ≤ 2 ^ 63 - 1 →
        resp.ExpiresIn = (tkn.ExpiresAt - env.now).tdiv 1000000000) ∧
      (env.now ≤ tkn.ExpiresAt → 0 ≤ resp.ExpiresIn) := by
  have key : ∀ w1 pns pname uid msg, (issue env w1 c pns pname uid msg).1 = .ok resp →
      ∃ tkn pns pname uid,
        env.NewAuthTokenWithExpiration pns pname uid = .ok (tkn, resp.AccessToken) ∧
        resp.ExpiresIn = (Sub tkn.ExpiresAt env.now).tdiv 1000000000 ∧
        (-(2 ^ 63) ≤ tkn.ExpiresAt - env.now ∧ tkn.ExpiresAt - env.now ≤ 2 ^ 63 - 1 →
          resp.ExpiresIn = (tkn.ExpiresAt - env.now).tdiv 1000000000) ∧
        (env.now ≤ tkn.ExpiresAt → 0 ≤ resp.ExpiresIn) := by
    intro w1 pns pname uid msg hi
    obtain ⟨tkn, accessToken, hprov, hresp, _, _⟩ := issue_ok _ _ _ _ _ _ _ _ hi
    have hexp : resp.ExpiresIn = expiresIn env.now tkn.ExpiresAt := by rw [hresp]
    have hacc : resp.AccessToken = accessToken := by rw [hresp]
    have hsec : resp.ExpiresIn = (Sub tkn.ExpiresAt env.now).tdiv 1000000000 := by
      rw [hexp, expiresIn, tdiv_milliseconds_seconds]
    refine ⟨tkn, pns, pname, uid, by rw [hacc]; exact hprov, hsec, ?_, ?_⟩
    · intro hrange
      rw [hsec]
      have hsub : Sub tkn.ExpiresAt env.now = tkn.ExpiresAt - env.now := by
        unfold Sub
        rw [if_neg (by omega), if_neg (by omega)]
      rw [hsub]
    · intro hle
      rw [hexp]
      exact expiresIn_nonneg _ _ hle
  rcases h with h | h
  · obtain ⟨_, _, r, _, _, heq⟩ := doAuthorizationCode_ok env w c code codeVerifier resp h
    rw [heq] at h
    exact key _ _ _ _ _ h
  · obtain ⟨_, _, t, _, heq⟩ := doRefreshToken_ok env w c refreshToken resp h
    rw [heq] at h
    exact key _ _ _ _ _ h

/-- The hypothesis of `expires_in_whole_seconds` holds for the spec's scenario, where the
token expires one hour after the response time and `expires_in` is 3600. -/
theorem expires_in_whole_seconds_witness :
    (doAuthorizationCode env0 world0 client0 "abc123" "xyz").1 =
      .ok { AccessToken := "access-token", TokenType := "bearer", ExpiresIn := 3600,
            RefreshToken := "abcdefghijklmnopqrstuvwxyz234567abcdefghijklmnopqrst" } ∧
    ∃ tkn pns pname uid,
      env0.NewAuthTokenWithExpiration pns pname uid = .ok (tkn, "access-token") ∧
      (3600 : Int) = (Sub tkn.ExpiresAt env0.now).tdiv 1000000000 :=
  ⟨by decide!,
   let ⟨tkn, pns, pname, uid, hp, hs, _, _⟩ := expires_in_whole_seconds env0 world0 client0
      "abc123" "xyz" ""
      { AccessToken := "access-token", TokenType := "bearer", ExpiresIn := 3600,
        RefreshToken := "abcdefghijklmnopqrstuvwxyz234567abcdefghijklmnopqrst" }
      (Or.inl (by decide!))
   ⟨tkn, pns, pname, uid, hp, hs⟩⟩

/-- C10. Exactly-one-record rule. For a non-empty code whose lookup does not fail, when
the number of `OAuthAuthRequest` records with the code's SHA-256 hex digest is not one
(zero, or more than one), `doAuthorizationCode` returns the 400 `invalid_request` error
"code is invalid" and the world is unchanged: nothing is deleted, the provider is not
called and no `OAuthToken` is created. -/
theorem code_needs_exactly_one_record (env : Env) (w : World) (c : v1.OAuthClient)
    (code codeVerifier : String) (hcode : code ≠ "") (hlist : env.listErr = none)
    (hcount : (w.store.authRequests.filter
      (fun x => x.HashedAuthCode == sha256Hex code)).length = 0 ∨
      (w.store.authRequests.filter
        (fun x => x.HashedAuthCode == sha256Hex code)).length > 1) :
    doAuthorizationCode env w c code codeVerifier =
      (.error (.ErrBadRequest { Code := "invalid_request", Description := "code is invalid" }), w) ∧
    (GoError.ErrBadRequest
      { Code := "invalid_request", Description := "code is invalid" }).status = some 400 := by
  refine ⟨?_, rfl⟩
  unfold doAuthorizationCode
  simp only [hcode, if_false, Store.listAuthRequests, hlist]
  generalize w.store.authRequests.filter (fun x => x.HashedAuthCode == sha256Hex code) = items
    at hcount
  match items, hcount with
  | [], _ => rfl
  | _ :: _ :: _, _ => rfl
  | [r], hcount => simp at hcount

/-- The hypotheses of `code_needs_exactly_one_record` hold with two records for the code
`abc123`; the exchange is rejected and both records stay. -/
theorem code_needs_exactly_one_record_witness :
    ("abc123" ≠ "" ∧ env0.listErr = none ∧
      (worldDuplicate.store.authRequests.filter
        (fun x => x.HashedAuthCode == sha256Hex "abc123")).length > 1) ∧
    doAuthorizationCode env0 worldDuplicate client0 "abc123" "xyz" =
      (.error (.ErrBadRequest { Code := "invalid_request", Description := "code is invalid" }),
       worldDuplicate) :=
  ⟨⟨by decide, rfl, by decide!⟩,
   (code_needs_exactly_one_record env0 worldDuplicate client0 "abc123" "xyz" (by decide) rfl
     (Or.inr (by decide!))).1⟩

/-- The refresh token is not empty when the first random text is not. -/
theorem newRefreshToken_ne_empty (env : Env) (h : env.randText1 ≠ "") :
    newRefreshToken env ≠ "" := by
  intro he
  apply h
  have hd := congrArg String.data he
  simp only [newRefreshToken, strings.ToLower, String.data_append, List.map_append] at hd
  have h1 : env.randText1.data = [] := by
    have := List.append_eq_nil.mp hd
    exact List.map_eq_nil_iff.mp this.1
  exact String.ext h1

/-- C7 (the code at the failing input). The Basic credentials of the client `shop:web`
with the secret `s3cr3t` are the header `Basic c2hvcCUzQXdlYjpzM2NyM3Q=`. `strings.Trim`
with the cutset `Basic ` removes the leading `c` of the base64 text as well, what is left
is not valid base64, and `token` answers 401 "Invalid client credentials" for a registered
client that presents its right secret. The same credentials for `acme:web`, whose base64
text does not begin or end with a character of the cutset, are resolved. -/
theorem basic_credentials_trimmed :
    basicAuthorizationHeader "shop:web" "s3cr3t" = "Basic c2hvcCUzQXdlYjpzM2NyM3Q=" ∧
    strings.Trim "Basic c2hvcCUzQXdlYjpzM2NyM3Q=" "Basic " = "2hvcCUzQXdlYjpzM2NyM3Q=" ∧
    base64.StdEncoding.DecodeString "2hvcCUzQXdlYjpzM2NyM3Q=" = none ∧
    credentials (basicRequest "shop:web" "s3cr3t") =
      .error (.ErrHTTP 401 "Invalid client credentials") ∧
    handler0.token env0 worldShop (basicRequest "shop:web" "s3cr3t") =
      (.error (.ErrHTTP 401 "Invalid client credentials"), worldShop) ∧
    credentials (basicRequest "acme:web" "s3cr3t") = .ok ("acme:web", "s3cr3t") := by
  decide!

/-- C9 (the code at the failing input). A grant type the server does not support is
rejected with a description that lists the supported grant types. A grant type the server
supports and the client may not use is rejected with the fixed description "client is not
allowed to use authorization_code grant type": for a client allowed `refresh_token` only
that asks for `authorization_code` the description does not contain the allowed grant
`refresh_token`, and for the client of the spec's scenario (allowed `authorization_code`
and `refresh_token`) that asks for `client_credentials` on a server supporting it, the
description is the same text, without `refresh_token` and denying a grant the client
has. -/
theorem disallowed_grant_description :
    handler0.grant (grantRequest "client_credentials") client0 =
      .error (.ErrBadRequest { Code := "invalid_request", Description := "grant_type must be one of authorization_code, refresh_token, not client_credentials" }) ∧
    handler0.grant (grantRequest "authorization_code") clientRefreshOnly =
      .error (.ErrBadRequest { Code := "invalid_request", Description := "client is not allowed to use authorization_code grant type" }) ∧
    handlerClientCredentials.grant (grantRequest "client_credentials") client0 =
      .error (.ErrBadRequest { Code := "invalid_request", Description := "client is not allowed to use authorization_code grant type" }) ∧
    strings.Contains "client is not allowed to use authorization_code grant type"
      "refresh_token" = false := by
  decide!

/-- The delete call of `doAuthorizationCode` leaves the provider log and the tokens as
they were. -/
theorem afterDelete_rest (env : Env) (w : World) (r : v1.OAuthAuthRequest) :
    (afterDelete env w r).providerCalls = w.providerCalls ∧
    (afterDelete env w r).store.tokens = w.store.tokens ∧
    (afterDelete env w r).store.clients = w.store.clients := by
  unfold afterDelete Store.deleteAuthRequest
  cases env.deleteErr <;> exact ⟨rfl, rfl, rfl⟩

/-- `doAuthorizationCode` once the lookup has found exactly the record `r`: the delete
call, the PKCE step, and `issue`. -/
theorem doAuthorizationCode_one (env : Env) (w : World) (c : v1.OAuthClient)
    (code codeVerifier : String) (r : v1.OAuthAuthRequest)
    (hcode : code ≠ "") (hlist : env.listErr = none)
    (hone : w.store.authRequests.filter (fun x => x.HashedAuthCode == sha256Hex code) = [r]) :
    doAuthorizationCode env w c code codeVerifier =
      match pkce r codeVerifier with
      | some err => (.error err, afterDelete env w r)
      | none =>
        issue env (afterDelete env w r) c r.AuthProviderNamespace r.AuthProviderName r.UserID
          "failed to create oauth token" := by
  unfold doAuthorizationCode
  simp only [hcode, if_false, Store.listAuthRequests, hlist, hone]
  rfl

/-- C11. PKCE with a method other than S256. For a call of `doAuthorizationCode` whose
lookup finds exactly the record `r`, with a non-empty challenge and a method that is not
`S256`: the PKCE step passes if and only if the method is exactly `plain` and the presented
verifier is the stored challenge, as strings (byte for byte); with method `plain` and
another verifier the result is the 400 `invalid_request` error "code_verifier is invalid";
with any other method, the empty one included, it is the 400 `invalid_request` error
"code_challenge_method must be S256 or plain. " whatever the verifier is. In both
rejections the provider is not called and no `OAuthToken` is created. -/
theorem pkce_plain_or_rejected (env : Env) (w : World) (oauthClient : v1.OAuthClient)
    (code codeVerifier : String) (r : v1.OAuthAuthRequest)
    (hcode : code ≠ "") (hlist : env.listErr = none)
    (hone : w.store.authRequests.filter (fun x => x.HashedAuthCode == sha256Hex code) = [r])
    (hchallenge : r.CodeChallenge ≠ "") (hmethod : r.CodeChallengeMethod ≠ "S256") :
    (pkce r codeVerifier = none ↔
      (r.CodeChallengeMethod = "plain" ∧ codeVerifier = r.CodeChallenge)) ∧
    (r.CodeChallengeMethod = "plain" → codeVerifier = r.CodeChallenge →
      (doAuthorizationCode env w oauthClient code codeVerifier).2.providerCalls =
        w.providerCalls ++ [{ AuthProviderNamespace := r.AuthProviderNamespace,
                              AuthProviderName := r.AuthProviderName,
                              UserID := r.UserID, ttl := Hour }]) ∧
    (r.CodeChallengeMethod = "plain" → codeVerifier ≠ r.CodeChallenge →
      (doAuthorizationCode env w oauthClient code codeVerifier).1 =
        .error (.ErrBadRequest { Code := "invalid_request", Description := "code_verifier is invalid" })) ∧
    (r.CodeChallengeMethod ≠ "plain" →
      (doAuthorizationCode env w oauthClient code codeVerifier).1 =
        .error (.ErrBadRequest { Code := "invalid_request", Description := "code_challenge_method must be S256 or plain. " })) ∧
    (¬ (r.CodeChallengeMethod = "plain" ∧ codeVerifier = r.CodeChallenge) →
      (doAuthorizationCode env w oauthClient code codeVerifier).2.providerCalls = w.providerCalls ∧
      (doAuthorizationCode env w oauthClient code codeVerifier).2.store.tokens = w.store.tokens) := by
  have hstep := doAuthorizationCode_one env w oauthClient code codeVerifier r hcode hlist hone
  have hrest := afterDelete_rest env w r
  have hp : pkce r codeVerifier = none ↔
      (r.CodeChallengeMethod = "plain" ∧ codeVerifier = r.CodeChallenge) := by
    by_cases hplain : r.CodeChallengeMethod = "plain"
    · by_cases hv : codeVerifier = r.CodeChallenge
      · simp [pkce, hchallenge, hmethod, hplain, hv]
      · have hv2 : r.CodeChallenge ≠ codeVerifier := fun h => hv h.symm
        simp [pkce, hchallenge, hplain, hv, hv2]
    · simp [pkce, hchallenge, hmethod, hplain]
  refine ⟨hp, ?_, ?_, ?_, ?_⟩
  · intro hplain hv
    rw [hstep, hp.mpr ⟨hplain, hv⟩]
    simp only [issue_providerCalls, hrest.1]
  · intro hplain hv
    have hv2 : r.CodeChallenge ≠ codeVerifier := fun h => hv h.symm
    have : pkce r codeVerifier = some (invalidRequest "code_verifier is invalid") := by
      simp [pkce, hchallenge, hplain, hv2]
    rw [hstep, this]
    rfl
  · intro hplain
    have : pkce r codeVerifier =
        some (invalidRequest "code_challenge_method must be S256 or plain. ") := by
      simp [pkce, hchallenge, hmethod, hplain]
    rw [hstep, this]
    rfl
  · intro hnot
    cases hpk : pkce r codeVerifier with
    | none => exact absurd (hp.mp hpk) hnot
    | some err =>
      rw [hstep, hpk]
      exact ⟨hrest.1, hrest.2.1⟩

/-- The hypotheses of `pkce_plain_or_rejected` hold for a `plain` challenge `Verifier`:
the verifier `Verifier` passes, the verifier `verifier` (another case) is rejected, and a
record with an empty method is rejected for the right verifier. -/
theorem pkce_plain_or_rejected_witness :
    ("abc123" ≠ "" ∧ env0.listErr = none ∧
      worldPlain.store.authRequests.filter (fun x => x.HashedAuthCode == sha256Hex "abc123") =
        [authRequestPlain] ∧
      authRequestPlain.CodeChallenge ≠ "" ∧ authRequestPlain.CodeChallengeMethod ≠ "S256") ∧
    pkce authRequestPlain "Verifier" = none ∧
    (doAuthorizationCode env0 worldPlain client0 "abc123" "verifier").1 =
      .error (.ErrBadRequest { Code := "invalid_request", Description := "code_verifier is invalid" }) ∧
    (doAuthorizationCode env0 worldNoMethod client0 "abc123" "Verifier").1 =
      .error (.ErrBadRequest { Code := "invalid_request", Description := "code_challenge_method must be S256 or plain. " }) :=
  ⟨⟨by decide, rfl, by decide!, by decide, by decide⟩,
   (pkce_plain_or_rejected env0 worldPlain client0 "abc123" "Verifier" authRequestPlain
      (by decide) rfl (by decide!) (by decide) (by decide)).1.mpr ⟨rfl, rfl⟩,
   (pkce_plain_or_rejected env0 worldPlain client0 "abc123" "verifier" authRequestPlain
      (by decide) rfl (by decide!) (by decide) (by decide)).2.2.1 rfl (by decide),
   (pkce_plain_or_rejected env0 worldNoMethod client0 "abc123" "Verifier" authRequestNoMethod
      (by decide) rfl (by decide!) (by decide) (by decide)).2.2.2.1 (by decide)⟩

/-- `strings.LastIndex` is `-1` exactly when the separator does not occur. -/
theorem LastIndex_eq_neg_one (s : String) (sep : Char) :
    strings.LastIndex s sep = -1 ↔ sep ∉ s.data := by
  unfold strings.LastIndex
  by_cases hc : sep ∈ s.data
  · have hlt : s.data.reverse.indexOf sep < s.data.length := by
      have := List.indexOf_lt_length.mpr (List.mem_reverse.mpr hc)
      simpa using this
    have hcon : s.data.contains sep = true := by simpa using hc
    rw [if_pos hcon]
    constructor
    · intro h
      omega
    · intro h
      exact absurd hc h
  · have hcon : ¬ (s.data.contains sep = true) := by simpa using hc
    rw [if_neg hcon]
    exact ⟨fun _ => hc, fun _ => rfl⟩

/-- C12 (counterexample). The header `Basic YSU6cw==` carries the text `a%:s`, whose id
`a%` cannot be URL-unescaped: `token` answers with the 400 `invalid_request` error
"client_id is invalid", which is not a 401. -/
theorem unescape_failure_is_bad_request :
    base64.StdEncoding.DecodeString "YSU6cw==" = some (toBytes "a%:s") ∧
    url.QueryUnescape "a%" = none ∧
    handler0.token env0 world0 (headerRequest "Basic YSU6cw==") =
      (.error (.ErrBadRequest { Code := "invalid_request", Description := "client_id is invalid" }),
       world0) ∧
    (GoError.ErrBadRequest
      { Code := "invalid_request", Description := "client_id is invalid" }).status ≠ some 401 := by
  decide!

/-- `strings.Trim` with the cutset `Basic ` removes exactly the prefix `Basic ` when the
payload neither begins nor ends with a character of the cutset. -/
theorem Trim_Basic_payload (payload : String)
    (hkept : trimRemovesNothing payload "Basic " = true) :
    strings.Trim ("Basic " ++ payload) "Basic " = payload := by
  have hdata : ("Basic " ++ payload).data = "Basic ".data ++ payload.data :=
    String.data_append _ _
  unfold trimRemovesNothing at hkept
  unfold strings.Trim
  rw [hdata]
  apply String.ext
  generalize hf : (fun c : Char => "Basic ".data.contains c) = f at hkept ⊢
  have hcut : ∀ c ∈ "Basic ".data, f c = true := by
    subst hf
    decide
  show ((List.dropWhile f ("Basic ".data ++ payload.data)).reverse.dropWhile f).reverse =
    payload.data
  rw [List.dropWhile_append_of_pos hcut]
  cases hp : payload.data with
  | nil => rfl
  | cons a rest =>
    rw [hp] at hkept
    simp only [List.head?_cons, Option.any_some, Bool.and_eq_true, Bool.not_eq_true'] at hkept
    obtain ⟨hfirst, hlast⟩ := hkept
    rw [List.dropWhile_cons_of_neg (by simp [hfirst])]
    have hrev : (a :: rest).reverse.head? = (a :: rest).getLast? := List.head?_reverse _
    cases hr : (a :: rest).reverse with
    | nil => simp at hr
    | cons b m =>
      rw [hr] at hrev
      simp only [List.head?_cons] at hrev
      rw [← hrev] at hlast
      simp only [Option.any_some] at hlast
      rw [List.dropWhile_cons_of_neg (by simp [hlast]), ← hr, List.reverse_reverse]

/-- C12 (as amended). For a request whose form parses and has no `client_id` field, the
code decodes the text `strings.Trim(header, "Basic ")`: the empty text for an absent
header, and exactly the payload for a header `Basic ` followed by a payload that neither
begins nor ends with a character of the cutset. `token` fails with 401 "Invalid client
credentials" when that text is empty, is not valid base64, or decodes to a text without a
colon; it fails with the 400 `invalid_request` error "client_id is invalid" when the text
before the last colon is not empty and cannot be URL-unescaped. In each case the answer is
the same for every handler configuration, environment and store, and the world is
unchanged: it is given before `Storage.Get`. -/
theorem credential_failures (h : handler) (env : Env) (w : World) (req : Request)
    (hparse : req.parseFormErr = none) (hid : req.FormValue "client_id" = "") :
    (req.authorization = "" → strings.Trim req.authorization "Basic " = "") ∧
    (∀ payload, req.authorization = "Basic " ++ payload →
      trimRemovesNothing payload "Basic " = true →
      strings.Trim req.authorization "Basic " = payload) ∧
    ((strings.Trim req.authorization "Basic " = "" ∨
        base64.StdEncoding.DecodeString (strings.Trim req.authorization "Basic ") = none ∨
        (∃ c, base64.StdEncoding.DecodeString (strings.Trim req.authorization "Basic ") = some c ∧
          ':' ∉ (ofBytes c).data)) →
      h.token env w req = (.error (.ErrHTTP 401 "Invalid client credentials"), w) ∧
      (GoError.ErrHTTP 401 "Invalid client credentials").status = some 401) ∧
    (∀ c, base64.StdEncoding.DecodeString (strings.Trim req.authorization "Basic ") = some c →
      strings.Trim req.authorization "Basic " ≠ "" →
      ':' ∈ (ofBytes c).data →
      ofBytes (c.take (strings.LastIndex (ofBytes c) ':').toNat) ≠ "" →
      url.QueryUnescape (ofBytes (c.take (strings.LastIndex (ofBytes c) ':').toNat)) = none →
      h.token env w req =
        (.error (.ErrBadRequest { Code := "invalid_request", Description := "client_id is invalid" }),
         w) ∧
      (GoError.ErrBadRequest
        { Code := "invalid_request", Description := "client_id is invalid" }).status = some 400) := by
  refine ⟨?_, ?_, ?_, ?_⟩
  · intro ha
    rw [ha]
    decide
  · intro payload ha hkept
    rw [ha]
    exact Trim_Basic_payload payload hkept
  · intro hcase
    refine ⟨?_, rfl⟩
    have hcreds : credentials req = .error invalidClientCredentials := by
      unfold credentials
      simp only [hid, if_true]
      rcases hcase with hp | hd | ⟨c, hd, hcolon⟩
      · simp [hp]
      · by_cases hp : strings.Trim req.authorization "Basic " = ""
        · simp [hp]
        · simp only [hp, if_false, hd]
      · by_cases hp : strings.Trim req.authorization "Basic " = ""
        · simp [hp]
        · have hidx := (LastIndex_eq_neg_one (ofBytes c) ':').mpr hcolon
          simp only [hp, if_false, hd, hidx, if_true]
    simp only [handler.token, authenticate, hparse, hcreds]
    rfl
  · intro c hd hp hcolon hne hun
    refine ⟨?_, rfl⟩
    have hidx : strings.LastIndex (ofBytes c) ':' ≠ -1 := by
      intro hneg
      exact ((LastIndex_eq_neg_one (ofBytes c) ':').mp hneg) hcolon
    have hcreds : credentials req = .error (invalidRequest "client_id is invalid") := by
      unfold credentials
      simp only [hid, if_true, hp, if_false, hd, hidx, hne, hun]
    simp only [handler.token, authenticate, hparse, hcreds]
    rfl

/-- The hypotheses of `credential_failures` hold for the header `Basic bm9jb2xvbg==`, the
base64 text of `nocolon`, from which `strings.Trim` removes the prefix only: the answer
is 401. -/
theorem credential_failures_witness :
    ((headerRequest "Basic bm9jb2xvbg==").parseFormErr = none ∧
      (headerRequest "Basic bm9jb2xvbg==").FormValue "client_id" = "" ∧
      (headerRequest "Basic bm9jb2xvbg==").authorization = "Basic " ++ "bm9jb2xvbg==" ∧
      trimRemovesNothing "bm9jb2xvbg==" "Basic " = true) ∧
    strings.Trim (headerRequest "Basic bm9jb2xvbg==").authorization "Basic " = "bm9jb2xvbg==" ∧
    base64.StdEncoding.DecodeString "bm9jb2xvbg==" = some (toBytes "nocolon") ∧
    handler0.token env0 world0 (headerRequest "Basic bm9jb2xvbg==") =
      (.error (.ErrHTTP 401 "Invalid client credentials"), world0) :=
  ⟨⟨rfl, by decide!, by decide!, by decide!⟩,
   (credential_failures handler0 env0 world0 (headerRequest "Basic bm9jb2xvbg==") rfl
      (by decide!)).2.1 "bm9jb2xvbg==" (by decide!) (by decide!),
   by decide!,
   ((credential_failures handler0 env0 world0 (headerRequest "Basic bm9jb2xvbg==") rfl
      (by decide!)).2.2.1
      (Or.inr (Or.inr ⟨toBytes "nocolon", by decide!, by decide!⟩))).1⟩

/-- `doRefreshToken` once the record `t` of a non-empty refresh token was found and the
delete call succeeded: `issue` on the store without `t`. -/
theorem doRefreshToken_found (env : Env) (w : World) (c : v1.OAuthClient)
    (refreshToken : String) (t : v1.OAuthToken) (hrt : refreshToken ≠ "")
    (hget : w.store.getToken env c.Namespace (sha256Hex refreshToken) = .ok t)
    (hdel : env.deleteErr = none) :
    doRefreshToken env w c refreshToken =
      issue env (afterRotation w t) c t.AuthProviderNamespace t.AuthProviderName t.UserID
        "failed to create new oauth token" := by
  unfold doRefreshToken
  simp only [hrt, if_false, hget, Store.deleteToken, hdel]
  rfl

/-- The store no longer holds a record under the key of `t` once `t` was rotated out. -/
theorem afterRotation_absent (w : World) (t : v1.OAuthToken) :
    ∀ x ∈ (afterRotation w t).store.tokens, ¬ (x.Namespace = t.Namespace ∧ x.Name = t.Name) := by
  intro x hx hkey
  simp only [afterRotation, List.mem_filter] at hx
  simp [hkey.1, hkey.2] at hx

/-- The three ways `issue` ends: the provider fails, `Create` fails, or both succeed. -/
theorem issue_cases (env : Env) (w : World) (c : v1.OAuthClient) (pns pname uid msg : String) :
    (∀ e, env.NewAuthTokenWithExpiration pns pname uid = .error e →
      (issue env w c pns pname uid msg).1 = .error (.Errorf "failed to create auth token" e) ∧
      (issue env w c pns pname uid msg).2.store = w.store) ∧
    (∀ tkn accessToken err, env.NewAuthTokenWithExpiration pns pname uid = .ok (tkn, accessToken) →
      w.store.createToken env (newOAuthToken c (newRefreshToken env) tkn.UserID pns pname) =
        .error err →
      (issue env w c pns pname uid msg).1 = .error (.Errorf msg err) ∧
      (issue env w c pns pname uid msg).2.store = w.store) ∧
    (∀ tkn accessToken store, env.NewAuthTokenWithExpiration pns pname uid = .ok (tkn, accessToken) →
      w.store.createToken env (newOAuthToken c (newRefreshToken env) tkn.UserID pns pname) =
        .ok store →
      (issue env w c pns pname uid msg).1 =
        .ok { AccessToken := accessToken, TokenType := "bearer",
              ExpiresIn := expiresIn env.now tkn.ExpiresAt,
              RefreshToken := newRefreshToken env } ∧
      (issue env w c pns pname uid msg).2.store = store) := by
  refine ⟨?_, ?_, ?_⟩
  · intro e he
    simp [issue, he]
  · intro tkn accessToken err hp hc
    simp [issue, hp, hc]
  · intro tkn accessToken store hp hc
    simp [issue, hp, hc]

/-- C13. Rotation invalidates before issuing. When `doRefreshToken` finds the record `t`
of the presented refresh token and the delete call succeeds, then in every outcome the
resulting store holds no record of the original store under the key of `t`: a record under
that key can only be the replacement created by this very call, after a success that
returned a refresh token with the same digest. When the identity provider fails, or when
persisting the replacement fails, the store is exactly the original one without `t`, the
result is the wrapped error "failed to create auth token" or "failed to create new oauth
token" (an error that carries no 400 status), and no response, hence no refresh token, is
returned. -/
theorem rotation_invalidates_before_issuing (env : Env) (w : World) (c : v1.OAuthClient)
    (refreshToken : String) (t : v1.OAuthToken) (hrt : refreshToken ≠ "")
    (hget : w.store.getToken env c.Namespace (sha256Hex refreshToken) = .ok t)
    (hdel : env.deleteErr = none) :
    (∀ x ∈ (doRefreshToken env w c refreshToken).2.store.tokens,
      x.Namespace = t.Namespace → x.Name = t.Name →
      ∃ (resp : types.OAuthToken) (tkn : AuthToken),
        (doRefreshToken env w c refreshToken).1 = .ok resp ∧
        x = newOAuthToken c resp.RefreshToken tkn.UserID t.AuthProviderNamespace
          t.AuthProviderName ∧
        x ∉ w.store.tokens.filter (fun y => !(y.Namespace == t.Namespace && y.Name == t.Name))) ∧
    (∀ e, env.NewAuthTokenWithExpiration t.AuthProviderNamespace t.AuthProviderName t.UserID =
        .error e →
      (doRefreshToken env w c refreshToken).1 =
        .error (.Errorf "failed to create auth token" e) ∧
      (doRefreshToken env w c refreshToken).2.store.tokens =
        w.store.tokens.filter (fun y => !(y.Namespace == t.Namespace && y.Name == t.Name)) ∧
      t ∉ (doRefreshToken env w c refreshToken).2.store.tokens) ∧
    (∀ tkn accessToken err,
      env.NewAuthTokenWithExpiration t.AuthProviderNamespace t.AuthProviderName t.UserID =
        .ok (tkn, accessToken) →
      (afterRotation w t).store.createToken env (newOAuthToken c (newRefreshToken env)
        tkn.UserID t.AuthProviderNamespace t.AuthProviderName) = .error err →
      (doRefreshToken env w c refreshToken).1 =
        .error (.Errorf "failed to create new oauth token" err) ∧
      (doRefreshToken env w c refreshToken).2.store.tokens =
        w.store.tokens.filter (fun y => !(y.Namespace == t.Namespace && y.Name == t.Name)) ∧
      t ∉ (doRefreshToken env w c refreshToken).2.store.tokens) ∧
    (∀ m e, (GoError.Errorf m e).status = none ∧
      ∀ d, GoError.Errorf m e ≠ GoError.ErrBadRequest d) := by
  have hstep := doRefreshToken_found env w c refreshToken t hrt hget hdel
  have habs := afterRotation_absent w t
  have htabs : t ∉ w.store.tokens.filter
      (fun y => !(y.Namespace == t.Namespace && y.Name == t.Name)) := by
    intro hmem
    exact habs t hmem ⟨rfl, rfl⟩
  obtain ⟨hc1, hc2, hc3⟩ := issue_cases env (afterRotation w t) c t.AuthProviderNamespace
    t.AuthProviderName t.UserID "failed to create new oauth token"
  refine ⟨?_, ?_, ?_, ?_⟩
  · intro x hx hns hname
    rw [hstep] at hx ⊢
    cases hp : env.NewAuthTokenWithExpiration t.AuthProviderNamespace t.AuthProviderName
        t.UserID with
    | error e =>
      rw [(hc1 e hp).2] at hx
      exact absurd ⟨hns, hname⟩ (habs x hx)
    | ok p =>
      obtain ⟨tkn, accessToken⟩ := p
      cases hcr : (afterRotation w t).store.createToken env (newOAuthToken c
          (newRefreshToken env) tkn.UserID t.AuthProviderNamespace t.AuthProviderName) with
      | error err =>
        rw [(hc2 tkn accessToken err hp hcr).2] at hx
        exact absurd ⟨hns, hname⟩ (habs x hx)
      | ok store =>
        obtain ⟨hres, hst⟩ := hc3 tkn accessToken store hp hcr
        obtain ⟨_, _, hs⟩ := createToken_ok _ _ _ _ hcr
        rw [hst, hs] at hx
        simp only [List.mem_append, List.mem_singleton] at hx
        rcases hx with hx | hx
        · exact absurd ⟨hns, hname⟩ (habs x hx)
        · refine ⟨_, tkn, hres, hx, ?_⟩
          intro hmem
          exact habs x hmem ⟨hns, hname⟩
  · intro e he
    rw [hstep]
    obtain ⟨h1, h2⟩ := hc1 e he
    refine ⟨h1, ?_, ?_⟩
    · rw [h2]
      rfl
    · rw [h2]
      exact htabs
  · intro tkn accessToken err hp hcr
    rw [hstep]
    obtain ⟨h1, h2⟩ := hc2 tkn accessToken err hp hcr
    refine ⟨h1, ?_, ?_⟩
    · rw [h2]
      rfl
    · rw [h2]
      exact htabs
  · intro m e
    exact ⟨rfl, fun d hd => GoError.noConfusion hd⟩

/-- The hypotheses of `rotation_invalidates_before_issuing` hold for the refresh token
`refresh-0` in `world1` with a failing provider: the result is the wrapped provider error
and the record of `refresh-0` is gone. -/
theorem rotation_invalidates_before_issuing_witness :
    ("refresh-0" ≠ "" ∧
      world1.store.getToken envProviderFails client0.Namespace (sha256Hex "refresh-0") =
        .ok token0 ∧
      envProviderFails.deleteErr = none ∧
      envProviderFails.NewAuthTokenWithExpiration token0.AuthProviderNamespace
        token0.AuthProviderName token0.UserID = .error (.external "provider down")) ∧
    (doRefreshToken envProviderFails world1 client0 "refresh-0").1 =
      .error (.Errorf "failed to create auth token" (.external "provider down")) ∧
    token0 ∉ (doRefreshToken envProviderFails world1 client0 "refresh-0").2.store.tokens :=
  ⟨⟨by decide, by decide!, rfl, rfl⟩,
   ((rotation_invalidates_before_issuing envProviderFails world1 client0 "refresh-0" token0
      (by decide) (by decide!) rfl).2.1 (.external "provider down") rfl).1,
   ((rotation_invalidates_before_issuing envProviderFails world1 client0 "refresh-0" token0
      (by decide) (by decide!) rfl).2.1 (.external "provider down") rfl).2.2⟩

/-- C14 (the code at the failing input). The lookup of `doAuthorizationCode` is a `List`
with a field selector and no namespace. The client `acme:web` exchanges the code of a
record that lives in the namespace `other`: the exchange succeeds, the record of `other`
is deleted and a token is issued for its user. And a record with the same hashed code in
the namespace `other` changes the outcome for the record of `acme`: with it the exchange
is rejected with "code is invalid", without it (`world0`) the exchange succeeds. -/
theorem lookup_ignores_namespace :
    (doAuthorizationCode env0 worldOtherNamespace client0 "abc123" "xyz").1 =
      .ok { AccessToken := "access-token", TokenType := "bearer", ExpiresIn := 3600,
            RefreshToken := "abcdefghijklmnopqrstuvwxyz234567abcdefghijklmnopqrst" } ∧
    (doAuthorizationCode env0 worldOtherNamespace client0 "abc123" "xyz").2.store.authRequests =
      [] ∧
    (doAuthorizationCode env0 worldTwoNamespaces client0 "abc123" "xyz").1 =
      .error (.ErrBadRequest { Code := "invalid_request", Description := "code is invalid" }) ∧
    (doAuthorizationCode env0 world0 client0 "abc123" "xyz").1 =
      .ok { AccessToken := "access-token", TokenType := "bearer", ExpiresIn := 3600,
            RefreshToken := "abcdefghijklmnopqrstuvwxyz234567abcdefghijklmnopqrst" } := by
  decide!

/-- C15 (counterexample). On a server that supports `client_credentials`, for a client
allowed to use it, a request with `grant_type=client_credentials` passes both grant-type
checks and is handed to `doRefreshToken` (which answers "refresh_token is required"). -/
theorem other_grant_reaches_refresh :
    handlerClientCredentials.grant (grantRequest "client_credentials")
        clientWithClientCredentials =
      .ok (.refreshToken clientWithClientCredentials "") ∧
    handlerClientCredentials.token env0 worldClientCredentials
        { parseFormErr := none
          form := [("grant_type", "client_credentials"), ("client_id", "acme:web"),
                   ("client_secret", "s3cr3t")]
          authorization := "" } =
      doRefreshToken env0 worldClientCredentials clientWithClientCredentials "" ∧
    (doRefreshToken env0 worldClientCredentials clientWithClientCredentials "").1 =
      .error (.ErrBadRequest { Code := "invalid_request", Description := "refresh_token is required" }) ∧
    "client_credentials" ≠ "refresh_token" := by
  decide!

/-- C15 (as amended). A request that `token` hands to `doRefreshToken` has a grant type
that is in the server's `GrantTypesSupported`, in the client's `GrantTypes`, and is not
`authorization_code`; it is `refresh_token` whenever the server's list, or the client's
list, holds no other grant types than `authorization_code` and `refresh_token`. -/
theorem refresh_dispatch (h : handler) (req : Request) (client client1 : v1.OAuthClient)
    (refreshToken : String)
    (hgrant : h.grant req client = .ok (.refreshToken client1 refreshToken)) :
    client1 = client ∧ refreshToken = req.FormValue "refresh_token" ∧
    req.FormValue "grant_type" ∈ h.oauthConfig.GrantTypesSupported ∧
    req.FormValue "grant_type" ∈ client.GrantTypes ∧
    req.FormValue "grant_type" ≠ "authorization_code" ∧
    ((∀ g ∈ h.oauthConfig.GrantTypesSupported, g = "authorization_code" ∨ g = "refresh_token") →
      req.FormValue "grant_type" = "refresh_token") ∧
    ((∀ g ∈ client.GrantTypes, g = "authorization_code" ∨ g = "refresh_token") →
      req.FormValue "grant_type" = "refresh_token") := by
  unfold handler.grant at hgrant
  simp only at hgrant
  split at hgrant
  · cases hgrant
  · rename_i hs
    split at hgrant
    · cases hgrant
    · rename_i hc
      split at hgrant
      · cases hgrant
      · rename_i ha
        have hs1 : req.FormValue "grant_type" ∈ h.oauthConfig.GrantTypesSupported := by
          simpa using hs
        have hc1 : req.FormValue "grant_type" ∈ client.GrantTypes := by simpa using hc
        injection hgrant with hg
        injection hg with h1 h2
        refine ⟨h1.symm, h2.symm, hs1, hc1, ha, ?_, ?_⟩
        · intro hall
          rcases hall _ hs1 with hx | hx
          · exact absurd hx ha
          · exact hx
        · intro hall
          rcases hall _ hc1 with hx | hx
          · exact absurd hx ha
          · exact hx

/-- The hypothesis of `refresh_dispatch` holds for a `refresh_token` request of the client
`acme:web` on `handler0`, whose supported grants are the two known ones. -/
theorem refresh_dispatch_witness :
    handler0.grant requestWrongSecret client0 = .ok (.refreshToken client0 "r") ∧
    requestWrongSecret.FormValue "grant_type" = "refresh_token" :=
  ⟨by decide!,
   (refresh_dispatch handler0 requestWrongSecret client0 client0 "r" (by decide!)).2.2.2.2.2.1
     (by decide)⟩

/-- An error of the PKCE step is a 400 `invalid_request`. -/
theorem pkce_error (r : v1.OAuthAuthRequest) (codeVerifier : String) (err : GoError)
    (h : pkce r codeVerifier = some err) :
    r.CodeChallenge ≠ "" ∧
    ∃ d, err = .ErrBadRequest { Code := "invalid_request", Description := d } := by
  unfold pkce at h
  split at h
  · rename_i hch
    refine ⟨by simpa using hch, ?_⟩
    split at h
    · split at h
      · cases h
        exact ⟨_, rfl⟩
      · cases h
    · split at h
      · split at h
        · cases h
          exact ⟨_, rfl⟩
        · cases h
      · cases h
        exact ⟨_, rfl⟩
  · cases h

/-- C16. A failed PKCE attempt still consumes the code. When the store holds exactly one
`OAuthAuthRequest` for the non-empty code `c`, with a non-empty challenge, the lookup and
the delete call do not fail, and the presented verifier fails the PKCE step, then
`doAuthorizationCode` returns a 400 `invalid_request` error, the record is gone from the
store, the provider was not called and no token was created; and any following
`doAuthorizationCode` with `c` (by any client, with any verifier, the right one included,
its lookup not failing) returns the 400 `invalid_request` error "code is invalid" and
changes nothing, so that no token is issued for `c`. -/
theorem failed_pkce_consumes_code (env env2 : Env) (w : World) (c c2 : v1.OAuthClient)
    (code v v2 : String) (r : v1.OAuthAuthRequest)
    (hcode : code ≠ "") (hlist : env.listErr = none)
    (hone : w.store.authRequests.filter (fun x => x.HashedAuthCode == sha256Hex code) = [r])
    (hchallenge : r.CodeChallenge ≠ "") (hfail : pkce r v ≠ none)
    (hdel : env.deleteErr = none) (hlist2 : env2.listErr = none) :
    (∃ d, (doAuthorizationCode env w c code v).1 =
      .error (.ErrBadRequest { Code := "invalid_request", Description := d })) ∧
    r ∉ (doAuthorizationCode env w c code v).2.store.authRequests ∧
    (doAuthorizationCode env w c code v).2.store.authRequests.filter
      (fun x => x.HashedAuthCode == sha256Hex code) = [] ∧
    (doAuthorizationCode env w c code v).2.providerCalls = w.providerCalls ∧
    (doAuthorizationCode env w c code v).2.store.tokens = w.store.tokens ∧
    doAuthorizationCode env2 (doAuthorizationCode env w c code v).2 c2 code v2 =
      (.error (.ErrBadRequest { Code := "invalid_request", Description := "code is invalid" }),
       (doAuthorizationCode env w c code v).2) := by
  have _ := hchallenge
  have hstep := doAuthorizationCode_one env w c code v r hcode hlist hone
  have hrest := afterDelete_rest env w r
  cases hp : pkce r v with
  | none => exact absurd hp hfail
  | some err =>
    obtain ⟨_, d, hd⟩ := pkce_error r v err hp
    rw [hp] at hstep
    have hreqs : (afterDelete env w r).store.authRequests =
        w.store.authRequests.filter (fun x => !(x.Namespace == r.Namespace && x.Name == r.Name)) := by
      simp [afterDelete, Store.deleteAuthRequest, hdel]
    have hnone := filter_after_delete _ _ _ hone
    rw [hstep]
    refine ⟨⟨d, by rw [hd]⟩, ?_, ?_, hrest.1, hrest.2.1, ?_⟩
    · simp only [hreqs, List.mem_filter]
      intro hmem
      simp at hmem
    · simp only [hreqs]
      exact hnone
    · unfold doAuthorizationCode
      simp only [hcode, if_false, Store.listAuthRequests, hlist2, hreqs, hnone]
      rfl

/-- The hypotheses of `failed_pkce_consumes_code` hold for the spec's scenario with the
verifier `wrong`: the attempt is rejected, and the following attempt with the right
verifier `xyz` is rejected with "code is invalid". -/
theorem failed_pkce_consumes_code_witness :
    ("abc123" ≠ "" ∧ env0.listErr = none ∧
      world0.store.authRequests.filter (fun x => x.HashedAuthCode == sha256Hex "abc123") =
        [authRequest0] ∧
      authRequest0.CodeChallenge ≠ "" ∧ pkce authRequest0 "wrong" ≠ none ∧
      env0.deleteErr = none) ∧
    (doAuthorizationCode env0 (doAuthorizationCode env0 world0 client0 "abc123" "wrong").2
        client0 "abc123" "xyz").1 =
      .error (.ErrBadRequest { Code := "invalid_request", Description := "code is invalid" }) :=
  ⟨⟨by decide, rfl, by decide!, by decide, by decide!, rfl⟩,
   congrArg Prod.fst (failed_pkce_consumes_code env0 env0 world0 client0 client0 "abc123"
     "wrong" "xyz" authRequest0 (by decide) rfl (by decide!) (by decide) (by decide!) rfl
     rfl).2.2.2.2.2⟩

/-- Blanking the client ids twice is blanking them once. -/
theorem eraseClientIDs_idem (w : World) : w.eraseClientIDs.eraseClientIDs = w.eraseClientIDs := by
  simp [World.eraseClientIDs, eraseClientID, Function.comp_def]

/-- The key test of the store does not read the client id. -/
theorem key_comp_erase (ns name : String) :
    ((fun x : v1.OAuthToken => x.Namespace == ns && x.Name == name) ∘ eraseClientID) =
      (fun x : v1.OAuthToken => x.Namespace == ns && x.Name == name) := by
  funext x
  rfl

/-- `issue` does not read the client ids of the stored tokens. -/
theorem issue_erase (env : Env) (w : World) (c : v1.OAuthClient) (pns pname uid msg : String) :
    (issue env w.eraseClientIDs c pns pname uid msg).1 = (issue env w c pns pname uid msg).1 ∧
    (issue env w.eraseClientIDs c pns pname uid msg).2.eraseClientIDs =
      (issue env w c pns pname uid msg).2.eraseClientIDs := by
  unfold issue
  cases env.NewAuthTokenWithExpiration pns pname uid with
  | error e =>
    refine ⟨rfl, ?_⟩
    simp [World.eraseClientIDs, eraseClientID, Function.comp_def]
  | ok p =>
    obtain ⟨tkn, accessToken⟩ := p
    simp only [Store.createToken]
    cases env.createErr with
    | some err =>
      refine ⟨rfl, ?_⟩
      simp [World.eraseClientIDs, eraseClientID, Function.comp_def]
    | none =>
      have hany : (w.eraseClientIDs.store.tokens.any (fun x =>
          x.Namespace == (newOAuthToken c (newRefreshToken env) tkn.UserID pns pname).Namespace &&
          x.Name == (newOAuthToken c (newRefreshToken env) tkn.UserID pns pname).Name)) =
          (w.store.tokens.any (fun x =>
          x.Namespace == (newOAuthToken c (newRefreshToken env) tkn.UserID pns pname).Namespace &&
          x.Name == (newOAuthToken c (newRefreshToken env) tkn.UserID pns pname).Name)) := by
        simp only [World.eraseClientIDs, List.any_map, key_comp_erase]
      simp only [hany]
      by_cases htaken : (w.store.tokens.any (fun x =>
          x.Namespace == (newOAuthToken c (newRefreshToken env) tkn.UserID pns pname).Namespace &&
          x.Name == (newOAuthToken c (newRefreshToken env) tkn.UserID pns pname).Name)) = true
      · simp only [htaken, if_true]
        refine ⟨trivial, ?_⟩
        simp [World.eraseClientIDs, eraseClientID, Function.comp_def]
      · simp only [htaken]
        refine ⟨rfl, ?_⟩
        simp [World.eraseClientIDs, eraseClientID, Function.comp_def]

/-- Rotating a record out commutes with blanking the client ids. -/
theorem afterRotation_erase (w : World) (t : v1.OAuthToken) :
    afterRotation w.eraseClientIDs (eraseClientID t) = (afterRotation w t).eraseClientIDs := by
  simp only [afterRotation, World.eraseClientIDs, List.filter_map]
  rfl

/-- `Storage.Get` of a token on the blanked store finds the blanked record. -/
theorem getToken_erase (env : Env) (w : World) (ns name : String) :
    w.eraseClientIDs.store.getToken env ns name =
      match w.store.getToken env ns name with
      | .ok t => .ok (eraseClientID t)
      | .error e => .error e := by
  unfold Store.getToken
  cases env.getTokenErr with
  | some e => rfl
  | none =>
    simp only [World.eraseClientIDs, List.find?_map, key_comp_erase]
    cases w.store.tokens.find? (fun t => t.Namespace == ns && t.Name == name) <;> rfl

/-- `doRefreshToken` does not read the client ids of the stored tokens. -/
theorem doRefreshToken_erase (env : Env) (w : World) (c : v1.OAuthClient) (rt : String) :
    (doRefreshToken env w.eraseClientIDs c rt).1 = (doRefreshToken env w c rt).1 ∧
    (doRefreshToken env w.eraseClientIDs c rt).2.eraseClientIDs =
      (doRefreshToken env w c rt).2.eraseClientIDs := by
  unfold doRefreshToken
  by_cases hrt : rt = ""
  · simp only [hrt, if_true]
    exact ⟨trivial, eraseClientIDs_idem w⟩
  · simp only [hrt, if_false, getToken_erase]
    cases w.store.getToken env c.Namespace (sha256Hex rt) with
    | error e => exact ⟨rfl, eraseClientIDs_idem w⟩
    | ok t =>
      simp only [Store.deleteToken]
      cases env.deleteErr with
      | some e => exact ⟨rfl, eraseClientIDs_idem w⟩
      | none =>
        have h1 := issue_erase env (afterRotation w t) c t.AuthProviderNamespace
          t.AuthProviderName t.UserID "failed to create new oauth token"
        have h2 := afterRotation_erase w t
        simp only [afterRotation] at h1 h2
        simp only [eraseClientID] at h2 ⊢
        rw [← h2] at h1
        exact h1

/-- C17. Refresh tokens are not bound to the issuing client. `doRefreshToken` does not
depend on the stored `Spec.ClientID`: on two worlds that differ at most in the client ids
of their token records it returns the same result and leaves worlds that again differ at
most in those client ids. And for two clients `A` and `B` of one namespace, when the
record `t` of the presented refresh token was issued to `A` and the store and provider
calls succeed, the call by `B` succeeds, `t` is no longer in the store, and the store
gained the record of the new refresh token with `ClientID` equal to the name of `B`. -/
theorem refresh_not_bound_to_client (env : Env) (w w2 : World) (A B : v1.OAuthClient)
    (refreshToken : String) (hsame : w2.eraseClientIDs = w.eraseClientIDs) :
    (doRefreshToken env w2 B refreshToken).1 = (doRefreshToken env w B refreshToken).1 ∧
    (doRefreshToken env w2 B refreshToken).2.eraseClientIDs =
      (doRefreshToken env w B refreshToken).2.eraseClientIDs ∧
    (∀ t tkn accessToken store, A.Namespace = B.Namespace → refreshToken ≠ "" →
      w.store.getToken env B.Namespace (sha256Hex refreshToken) = .ok t →
      t.ClientID = A.Name → env.deleteErr = none →
      env.NewAuthTokenWithExpiration t.AuthProviderNamespace t.AuthProviderName t.UserID =
        .ok (tkn, accessToken) →
      (afterRotation w t).store.createToken env (newOAuthToken B (newRefreshToken env)
        tkn.UserID t.AuthProviderNamespace t.AuthProviderName) = .ok store →
      (doRefreshToken env w B refreshToken).1 =
        .ok { AccessToken := accessToken, TokenType := "bearer",
              ExpiresIn := expiresIn env.now tkn.ExpiresAt,
              RefreshToken := newRefreshToken env } ∧
      (doRefreshToken env w B refreshToken).2.store.tokens =
        w.store.tokens.filter (fun y => !(y.Namespace == t.Namespace && y.Name == t.Name)) ++
          [newOAuthToken B (newRefreshToken env) tkn.UserID t.AuthProviderNamespace
            t.AuthProviderName] ∧
      t ∉ w.store.tokens.filter (fun y => !(y.Namespace == t.Namespace && y.Name == t.Name)) ∧
      (newOAuthToken B (newRefreshToken env) tkn.UserID t.AuthProviderNamespace
        t.AuthProviderName).ClientID = B.Name) := by
  have e1 := doRefreshToken_erase env w B refreshToken
  have e2 := doRefreshToken_erase env w2 B refreshToken
  rw [hsame] at e2
  refine ⟨e2.1.symm.trans e1.1, e2.2.symm.trans e1.2, ?_⟩
  intro t tkn accessToken store _ hrt hget _ hdel hprov hcreate
  rw [doRefreshToken_found env w B refreshToken t hrt hget hdel]
  obtain ⟨_, _, hc3⟩ := issue_cases env (afterRotation w t) B t.AuthProviderNamespace
    t.AuthProviderName t.UserID "failed to create new oauth token"
  obtain ⟨hres, hst⟩ := hc3 tkn accessToken store hprov hcreate
  obtain ⟨_, _, hs⟩ := createToken_ok _ _ _ _ hcreate
  refine ⟨hres, ?_, ?_, rfl⟩
  · rw [hst, hs]
    rfl
  · intro hmem
    exact afterRotation_absent w t t hmem ⟨rfl, rfl⟩

/-- The hypothesis of `refresh_not_bound_to_client` holds for `world1`, where the record
of `refresh-0` was issued to `web`, and `world1Cli`, where it was issued to `cli`: the
client `cli` gets the same answer on both, and on `world1` it is a success. -/
theorem refresh_not_bound_to_client_witness :
    world1Cli.eraseClientIDs = world1.eraseClientIDs ∧
    (doRefreshToken env0 world1Cli clientCli "refresh-0").1 =
      (doRefreshToken env0 world1 clientCli "refresh-0").1 ∧
    (doRefreshToken env0 world1 clientCli "refresh-0").1 =
      .ok { AccessToken := "access-token", TokenType := "bearer", ExpiresIn := 3600,
            RefreshToken := "abcdefghijklmnopqrstuvwxyz234567abcdefghijklmnopqrst" } ∧
    (doRefreshToken env0 world1 clientCli "refresh-0").2.store.tokens =
      [newOAuthToken clientCli "abcdefghijklmnopqrstuvwxyz234567abcdefghijklmnopqrst" "42"
        "default" "github"] :=
  ⟨by decide!,
   (refresh_not_bound_to_client env0 world1 world1Cli client0 clientCli "refresh-0"
      (by decide!)).1,
   by decide!, by decide!⟩

/-- C3 (the code at the failing input). The client `acme:web` is registered with
`client_secret_basic` and the secret `s3cr3tX`. A request presents, in its Basic
credentials, the secret `s3cr3tXj l`, which bcrypt rejects for the stored hash. Its header
is `Basic YWNtZSUzQXdlYjpzM2NyM3RYaiBs`; `strings.Trim` with the cutset `Basic ` also
removes the trailing `aiBs` of the base64 text, what is left decodes to
`acme%3Aweb:s3cr3tX`, the secret that is checked is `s3cr3tX`, and `token` authenticates
the client and answers with tokens instead of 401. -/
theorem mismatching_basic_secret_accepted :
    basicAuthorizationHeader "acme:web" "s3cr3tXj l" = "Basic YWNtZSUzQXdlYjpzM2NyM3RYaiBs" ∧
    envSecretX.compareHashAndPassword clientBasic.ClientSecretHash "s3cr3tXj l" = false ∧
    strings.Trim "Basic YWNtZSUzQXdlYjpzM2NyM3RYaiBs" "Basic " = "YWNtZSUzQXdlYjpzM2NyM3RY" ∧
    credentials (basicRequest "acme:web" "s3cr3tXj l") = .ok ("acme:web", "s3cr3tX") ∧
    authenticate envSecretX worldBasic.store (basicRequest "acme:web" "s3cr3tXj l") =
      .ok clientBasic ∧
    (handler0.token envSecretX worldBasic (basicRequest "acme:web" "s3cr3tXj l")).1 =
      .ok { AccessToken := "access-token", TokenType := "bearer", ExpiresIn := 3600,
            RefreshToken := "abcdefghijklmnopqrstuvwxyz234567abcdefghijklmnopqrst" } := by
  decide!

/-- The compression keeps the hash value at eight words. -/
theorem compress_length (hs block : List Nat) (h : hs.length = 8) :
    (sha256.compress hs block).length = 8 := by
  simp [sha256.compress, h]

/-- The hash value has eight words after every block. -/
theorem blocks_length (n : Nat) (hs bytes : List Nat) (h : hs.length = 8) :
    (sha256.blocks hs bytes n).length = 8 := by
  induction n generalizing hs bytes with
  | zero => exact h
  | succ n ih => exact ih _ _ (compress_length hs _ h)

/-- A SHA-256 digest has 32 bytes. -/
theorem Sum256_length (msg : List Nat) : (sha256.Sum256 msg).length = 32 := by
  have hflat : ∀ ws : List Nat, (ws.flatMap
      (fun w => [w / 2 ^ 24 % 256, w / 2 ^ 16 % 256, w / 2 ^ 8 % 256, w % 256])).length =
      4 * ws.length := by
    intro ws
    induction ws with
    | nil => rfl
    | cons a t ih =>
      simp only [List.flatMap_cons, List.length_append, ih, List.length_cons, List.length_nil]
      omega
  unfold sha256.Sum256
  simp only [hflat, blocks_length _ _ _ (rfl : sha256.H0.length = 8)]

/-- The hex text of `n` bytes has `2 * n` characters. -/
theorem hexEncode_length (l : List Nat) : (hexEncode l).length = 2 * l.length := by
  induction l with
  | nil => rfl
  | cons b rest ih =>
    simp only [hexEncode, List.length_cons, ih]
    omega

/-- The hex SHA-256 digest of any text has 64 characters. -/
theorem sha256Hex_length (s : String) : (sha256Hex s).length = 64 := by
  unfold sha256Hex
  rw [String.length_mk, hexEncode_length, Sum256_length]

/-- The refresh token has 52 characters when `rand.Text` returns 26 characters, as it
does. -/
theorem newRefreshToken_length (env : Env)
    (h : env.randText1.length = 26 ∧ env.randText2.length = 26) :
    (newRefreshToken env).length = 52 := by
  unfold newRefreshToken strings.ToLower
  rw [String.length_mk, List.length_map, String.data_append, List.length_append]
  have h1 : env.randText1.data.length = 26 := h.1
  have h2 : env.randText2.data.length = 26 := h.2
  omega

/-- A successful `issue` appended one record to the tokens of the store, the record of the
returned refresh token, under a key that was free. -/
theorem issue_stored (env : Env) (w1 : World) (c : v1.OAuthClient)
    (pns pname uid msg : String) (resp : types.OAuthToken) (w' : World)
    (h : issue env w1 c pns pname uid msg = (.ok resp, w')) :
    ∃ tkn : AuthToken,
      env.NewAuthTokenWithExpiration pns pname uid = .ok (tkn, resp.AccessToken) ∧
      resp.RefreshToken = newRefreshToken env ∧
      w'.store.tokens = w1.store.tokens ++
        [{ Namespace := c.Namespace, Name := sha256Hex resp.RefreshToken, ClientID := c.Name,
           UserID := tkn.UserID, AuthProviderNamespace := pns, AuthProviderName := pname }] ∧
      (∀ x ∈ w1.store.tokens,
        ¬ (x.Namespace = c.Namespace ∧ x.Name = sha256Hex resp.RefreshToken)) := by
  have h1 : (issue env w1 c pns pname uid msg).1 = .ok resp := by rw [h]
  have h2 : (issue env w1 c pns pname uid msg).2 = w' := by rw [h]
  obtain ⟨tkn, accessToken, hprov, hresp, hstore, hany⟩ := issue_ok _ _ _ _ _ _ _ _ h1
  rw [h2] at hstore
  have hrt : resp.RefreshToken = newRefreshToken env := by rw [hresp]
  have hacc : resp.AccessToken = accessToken := by rw [hresp]
  refine ⟨tkn, by rw [hacc]; exact hprov, hrt, ?_, ?_⟩
  · rw [hstore, hrt]
    rfl
  · intro x hx hkey
    rw [List.any_eq_false] at hany
    apply hany x hx
    simp [hkey.1, hkey.2, hrt]

/-- C6. Issued refresh token round trip. When `doAuthorizationCode` (consuming the
authorization request `r`) or `doRefreshToken` (consuming the token record `t`) succeeds
with the response `resp` and leaves the world `w'`, `pns`, `pname` and `uid` being the
provider namespace, provider name and user id of the consumed record, then the provider
answered `tkn` for them, and the call added exactly one record to the tokens of the store:
`record`, in the client's namespace, named by the lowercase hex SHA-256 digest of
`resp.RefreshToken`, with `ClientID` the client's name, `UserID` the user id the provider
returned, and the provider namespace and name of the consumed record; no other record
has that key. The refresh token itself is in no field of it: the name is a 64-character
digest, the token has 52 characters (`rand.Text` returns 26), and the other fields are
values of the client, the provider's answer and the consumed record. Consequently a
following `doRefreshToken` by the same client presenting `resp.RefreshToken`, with a store
whose `Get` does not fail, finds `record` and goes on past the lookup: it fails with the
wrapped delete error if the delete fails, otherwise it asks the provider for a token for
the provider and user of `record`, it succeeds when provider and `Create` succeed, and it
never ends in a 400. -/
theorem issued_refresh_token_round_trip (env : Env) (w w' : World) (c : v1.OAuthClient)
    (code codeVerifier refreshToken pns pname uid : String) (resp : types.OAuthToken)
    (hrand : env.randText1.length = 26 ∧ env.randText2.length = 26)
    (hcall :
      (∃ r, w.store.authRequests.filter (fun x => x.HashedAuthCode == sha256Hex code) = [r] ∧
        r.AuthProviderNamespace = pns ∧ r.AuthProviderName = pname ∧ r.UserID = uid ∧
        doAuthorizationCode env w c code codeVerifier = (.ok resp, w')) ∨
      (∃ t, w.store.getToken env c.Namespace (sha256Hex refreshToken) = .ok t ∧
        t.AuthProviderNamespace = pns ∧ t.AuthProviderName = pname ∧ t.UserID = uid ∧
        doRefreshToken env w c refreshToken = (.ok resp, w'))) :
    ∃ (tkn : AuthToken) (record : v1.OAuthToken) (old : List v1.OAuthToken),
      env.NewAuthTokenWithExpiration pns pname uid = .ok (tkn, resp.AccessToken) ∧
      record = { Namespace := c.Namespace, Name := sha256Hex resp.RefreshToken, ClientID := c.Name, UserID := tkn.UserID, AuthProviderNamespace := pns, AuthProviderName := pname } ∧
      w'.store.tokens = old ++ [record] ∧
      (∀ x ∈ old, x ∈ w.store.tokens) ∧
      (∀ x ∈ old, ¬ (x.Namespace = c.Namespace ∧ x.Name = sha256Hex resp.RefreshToken)) ∧
      resp.RefreshToken.length = 52 ∧ record.Name.length = 64 ∧
      record.Name ≠ resp.RefreshToken ∧
      ∀ env2 : Env, env2.getTokenErr = none →
        w'.store.getToken env2 c.Namespace (sha256Hex resp.RefreshToken) = .ok record ∧
        (∀ e, env2.deleteErr = some e →
          doRefreshToken env2 w' c resp.RefreshToken =
            (.error (.Errorf "failed to refresh oauth token" e), w')) ∧
        (env2.deleteErr = none →
          (doRefreshToken env2 w' c resp.RefreshToken).2.providerCalls =
            w'.providerCalls ++ [{ AuthProviderNamespace := pns, AuthProviderName := pname, UserID := tkn.UserID, ttl := Hour }]) ∧
        (∀ tkn2 accessToken2 store2, env2.deleteErr = none →
          env2.NewAuthTokenWithExpiration pns pname tkn.UserID = .ok (tkn2, accessToken2) →
          (afterRotation w' record).store.createToken env2
            { Namespace := c.Namespace, Name := sha256Hex (newRefreshToken env2), ClientID := c.Name, UserID := tkn2.UserID, AuthProviderNamespace := pns, AuthProviderName := pname } = .ok store2 →
          (doRefreshToken env2 w' c resp.RefreshToken).1 =
            .ok { AccessToken := accessToken2, TokenType := "bearer", ExpiresIn := expiresIn env2.now tkn2.ExpiresAt, RefreshToken := newRefreshToken env2 }) ∧
        ∀ e, (doRefreshToken env2 w' c resp.RefreshToken).1 ≠ .error (.ErrBadRequest e) := by
  -- both handlers end in `issue` on a world whose tokens come from `w`
  have hissue : ∃ w1 msg, issue env w1 c pns pname uid msg = (.ok resp, w') ∧
      (∀ x ∈ w1.store.tokens, x ∈ w.store.tokens) := by
    rcases hcall with ⟨r, hone, h1, h2, h3, h⟩ | ⟨t, hget, h1, h2, h3, h⟩
    · have hok : (doAuthorizationCode env w c code codeVerifier).1 = .ok resp := by rw [h]
      obtain ⟨_, _, r1, hone1, _, heq⟩ := doAuthorizationCode_ok env w c code codeVerifier resp hok
      have hr : r1 = r := by
        have := hone1.symm.trans hone
        simpa using this
      subst hr
      rw [heq, h1, h2, h3] at h
      refine ⟨_, _, h, ?_⟩
      intro x hx
      rw [(afterDelete_rest env w r1).2.1] at hx
      exact hx
    · have hok : (doRefreshToken env w c refreshToken).1 = .ok resp := by rw [h]
      obtain ⟨_, _, t1, hget1, heq⟩ := doRefreshToken_ok env w c refreshToken resp hok
      have ht : t1 = t := by
        have := hget1.symm.trans hget
        simpa using this
      subst ht
      rw [heq, h1, h2, h3] at h
      refine ⟨_, _, h, ?_⟩
      intro x hx
      simp only [afterRotation, List.mem_filter] at hx
      exact hx.1
  obtain ⟨w1, msg, hi, hsub⟩ := hissue
  obtain ⟨tkn, hprov, hrt, htokens, hfree⟩ := issue_stored env w1 c pns pname uid msg resp w' hi
  have hlen : resp.RefreshToken.length = 52 := by
    rw [hrt]
    exact newRefreshToken_length env hrand
  have hne : resp.RefreshToken ≠ "" := by
    intro he
    rw [he] at hlen
    simp at hlen
  have hname : sha256Hex resp.RefreshToken ≠ resp.RefreshToken := by
    intro he
    have h64 := sha256Hex_length resp.RefreshToken
    rw [he] at h64
    omega
  refine ⟨tkn, _, w1.store.tokens, hprov, rfl, htokens, hsub, hfree, hlen,
    sha256Hex_length _, hname, ?_⟩
  intro env2 he2
  have hget : w'.store.getToken env2 c.Namespace (sha256Hex resp.RefreshToken) =
      .ok { Namespace := c.Namespace, Name := sha256Hex resp.RefreshToken, ClientID := c.Name, UserID := tkn.UserID, AuthProviderNamespace := pns, AuthProviderName := pname } := by
    have hnone : w1.store.tokens.find? (fun t => t.Namespace == c.Namespace &&
        t.Name == sha256Hex resp.RefreshToken) = none := by
      rw [List.find?_eq_none]
      intro x hx
      have := hfree x hx
      simpa using this
    simp only [Store.getToken, he2, htokens, List.find?_append, hnone]
    simp
  refine ⟨hget, ?_, ?_, ?_, ?_⟩
  · intro e hd
    unfold doRefreshToken
    simp only [hne, if_false, hget, Store.deleteToken, hd]
  · intro hd
    rw [doRefreshToken_found env2 w' c resp.RefreshToken _ hne hget hd, issue_providerCalls]
    rfl
  · intro tkn2 accessToken2 store2 hd hp2 hc2
    rw [doRefreshToken_found env2 w' c resp.RefreshToken _ hne hget hd]
    exact ((issue_cases env2 _ c pns pname tkn.UserID
      "failed to create new oauth token").2.2 tkn2 accessToken2 store2 hp2 hc2).1
  · intro e
    cases hd : env2.deleteErr with
    | some err =>
      unfold doRefreshToken
      simp only [hne, if_false, hget, Store.deleteToken, hd]
      simp
    | none =>
      rw [doRefreshToken_found env2 w' c resp.RefreshToken _ hne hget hd]
      rcases issue_result env2 (afterRotation w' { Namespace := c.Namespace, Name := sha256Hex resp.RefreshToken, ClientID := c.Name, UserID := tkn.UserID, AuthProviderNamespace := pns, AuthProviderName := pname }) c pns pname tkn.UserID
        "failed to create new oauth token" with ⟨r2, hr2⟩ | ⟨m, err, hr2⟩
      · rw [hr2]
        simp
      · rw [hr2]
        simp

/-- The hypotheses of `issued_refresh_token_round_trip` hold for the spec's scenario: the
exchange of `abc123` succeeds, the store then holds the record of the returned refresh
token with the fields of the client `acme:web`, the user `42` and the provider
`default/github`, and a following `doRefreshToken` finds it. -/
theorem issued_refresh_token_round_trip_witness :
    ((env0.randText1.length = 26 ∧ env0.randText2.length = 26) ∧
      world0.store.authRequests.filter (fun x => x.HashedAuthCode == sha256Hex "abc123") =
        [authRequest0] ∧
      authRequest0.AuthProviderNamespace = "default" ∧
      authRequest0.AuthProviderName = "github" ∧ authRequest0.UserID = "42" ∧
      doAuthorizationCode env0 world0 client0 "abc123" "xyz" =
        (.ok { AccessToken := "access-token", TokenType := "bearer", ExpiresIn := 3600,
               RefreshToken := "abcdefghijklmnopqrstuvwxyz234567abcdefghijklmnopqrst" },
         world0Exchanged)) ∧
    ∃ (tkn : AuthToken) (record : v1.OAuthToken),
      env0.NewAuthTokenWithExpiration "default" "github" "42" = .ok (tkn, "access-token") ∧
      record = { Namespace := "acme", Name := sha256Hex "abcdefghijklmnopqrstuvwxyz234567abcdefghijklmnopqrst", ClientID := "web", UserID := tkn.UserID, AuthProviderNamespace := "default", AuthProviderName := "github" } ∧
      record ∈ world0Exchanged.store.tokens ∧
      world0Exchanged.store.getToken env0 "acme"
          (sha256Hex "abcdefghijklmnopqrstuvwxyz234567abcdefghijklmnopqrst") = .ok record :=
  ⟨⟨by decide!, by decide!, rfl, rfl, rfl, by decide!⟩,
   let ⟨tkn, record, old, hprov, hrec, htokens, _, _, _, _, _, hnext⟩ :=
     issued_refresh_token_round_trip env0 world0 world0Exchanged client0 "abc123" "xyz" ""
       "default" "github" "42"
       { AccessToken := "access-token", TokenType := "bearer", ExpiresIn := 3600,
         RefreshToken := "abcdefghijklmnopqrstuvwxyz234567abcdefghijklmnopqrst" }
       (by decide!) (Or.inl ⟨authRequest0, by decide!, rfl, rfl, rfl, by decide!⟩)
   ⟨tkn, record, hprov, hrec,
    by rw [htokens]; exact List.mem_append_right old (List.mem_singleton.mpr rfl),
    (hnext env0 rfl).1⟩⟩

end OAuth
